import Mathlib

/-!
StaticServer: a shallow embedding of the request handling code.

The definitions below embed `src/src/server.cpp` and `src/src/file_utils.cpp`.
A `std::string` is a list of bytes, the two stream operations the parser uses
(`std::getline` and `operator>>` on a `std::istringstream`) are functions on an
explicit stream state, the file system is a pair of oracles, and the calls a
connection handler makes (parse, file access, `send`) are recorded in a trace.
-/

namespace StaticServer

/-! ## Strings -/

/-- A C++ `char`: one 8-bit byte. -/
abbrev Byte := UInt8

/-- A `std::string`: a finite sequence of bytes, NUL bytes allowed. -/
abbrev CppString := List Byte

/-- A string literal of the source (all of them are ASCII). -/
def lit (s : String) : CppString := s.toList.map (fun c => UInt8.ofNat c.toNat)

/-- NUL, the terminator of a C string. -/
def NUL : Byte := 0
/-- The carriage return, written `'\r'` in the source. -/
def CR : Byte := 13
/-- The space character. -/
def SP : Byte := 32
/-- The character `'?'`. -/
def QMARK : Byte := 63
/-- The character `'.'`. -/
def DOT : Byte := 46

/-- The bytes seen through `s.c_str()`, and the `std::string` built from a
`const char *`: everything before the first NUL. -/
def c_str (s : List Byte) : CppString := s.takeWhile (fun c => c != NUL)

/-- Whitespace of the classic "C" locale, as `std::isspace` and the stream
extractor see it: space, `\t`, `\n`, `\v`, `\f`, `\r`. -/
def isspace (c : Byte) : Bool := c == 32 || (9 ≤ c && c ≤ 13)

/-- The member `std::string::find(ch)`: index of the first occurrence, `none` for `npos`. -/
def find (s : CppString) (ch : Byte) : Option Nat :=
  match s with
  | [] => none
  | c :: cs => if c == ch then some 0 else (find cs ch).map (fun i => i + 1)

/-- The member `std::string::find_last_of(ch)`: index of the last occurrence, `none` for
`npos`. -/
def find_last_of (s : CppString) (ch : Byte) : Option Nat :=
  match s with
  | [] => none
  | c :: cs =>
    match find_last_of cs ch with
    | some i => some (i + 1)
    | none => if c == ch then some 0 else none

/-- The member `std::string::substr(pos, count)`; `count = none` is the default `npos`
(up to the end). Every call in the source has `pos ≤ size`. -/
def substr (s : CppString) (pos : Nat) (count : Option Nat) : CppString :=
  match count with
  | none => s.drop pos
  | some n => (s.drop pos).take n

/-- The library function `std::to_string` on an unsigned value: its decimal digits. -/
def to_string (n : Nat) : CppString :=
  (Nat.toDigits 10 n).map (fun c => UInt8.ofNat c.toNat)

/-- The number that a string of decimal digits denotes (how a client reads a
`Content-Length` value). -/
def decimal_value (s : CppString) : Nat :=
  s.foldl (fun acc c => 10 * acc + (c.toNat - 48)) 0

/-! ## Input string streams -/

/-- State of a `std::istringstream`: the characters not yet consumed and the
two state bits the code path depends on. -/
structure IStringStream where
  buf : CppString
  eofbit : Bool
  failbit : Bool
deriving DecidableEq

/-- A freshly constructed `std::istringstream(s)`. -/
def istringstream (s : CppString) : IStringStream :=
  { buf := s, eofbit := false, failbit := false }

/-- The member `good()`: no state bit set. -/
def IStringStream.good (s : IStringStream) : Bool := !s.eofbit && !s.failbit

/-- The library function `std::getline(is, str, delim)`: on a good stream `str` is erased and
receives the characters up to the delimiter, which is consumed and not
stored; reaching the end sets `eofbit`, extracting nothing sets `failbit`. On a
stream that is not good, `failbit` is set and `str` is left alone. -/
def getline (is : IStringStream) (str : CppString) (delim : Byte) :
    IStringStream × CppString :=
  if !is.good then ({ is with failbit := true }, str)
  else
    let line := is.buf.takeWhile (fun c => c != delim)
    match is.buf.dropWhile (fun c => c != delim) with
    | [] => ({ buf := [], eofbit := true, failbit := line.isEmpty }, line)
    | _ :: rest => ({ buf := rest, eofbit := false, failbit := false }, line)

/-- The extractor `is >> str` for a `std::string`: on a good stream leading
whitespace is skipped; if the end is reached there, `eofbit` and `failbit`
are set and `str` is left alone; otherwise `str` is erased and receives the
characters up to the next whitespace or the end (the end sets `eofbit`). On a
stream that is not good, `failbit` is set and `str` is left alone. -/
def extract (is : IStringStream) (str : CppString) : IStringStream × CppString :=
  if !is.good then ({ is with failbit := true }, str)
  else
    match is.buf.dropWhile isspace with
    | [] => ({ buf := [], eofbit := true, failbit := true }, str)
    | c :: cs =>
      let rest := (c :: cs).dropWhile (fun b => !isspace b)
      ({ buf := rest, eofbit := rest.isEmpty, failbit := false },
        (c :: cs).takeWhile (fun b => !isspace b))

/-! ## file_utils -/

/-- The file system as the two library calls of `file_utils` observe it:
whether `stat` succeeds on a C path, and what opening a C path for reading
and draining it yields (`none` when the file cannot be opened). -/
structure FileSystem where
  stat : CppString → Bool
  ifstream : CppString → Option CppString

namespace file_utils

/-- The function `file_utils::file_exists`: `stat(path.c_str(), &buffer) == 0`. -/
def file_exists (fs : FileSystem) (path : CppString) : Bool :=
  fs.stat (c_str path)

/-- The function `file_utils::read_file`: throws `runtime_error("Cannot open file: " + path)`
when the stream is not open, otherwise returns the whole content. The
`std::ifstream` constructor opens `path.c_str()`. -/
def read_file (fs : FileSystem) (path : CppString) : Except CppString CppString :=
  match fs.ifstream (c_str path) with
  | none => Except.error (lit "Cannot open file: " ++ path)
  | some content => Except.ok content

/-- The function `file_utils::get_file_extension`. -/
def get_file_extension (path : CppString) : CppString :=
  match find_last_of path DOT with
  | some dot_pos => substr path dot_pos none
  | none => lit ""

end file_utils

/-! ## StaticFileServer -/

/-- The struct `ServerConfig` of `include/config.h`. -/
structure ServerConfig where
  port : Int
  root_directory : CppString

/-- The table built by `initialize_mime_types`; it is never changed afterwards. -/
def mime_types : List (CppString × CppString) :=
  [ (lit ".html", lit "text/html"), (lit ".htm", lit "text/html"),
    (lit ".css", lit "text/css"), (lit ".js", lit "application/javascript"),
    (lit ".json", lit "application/json"), (lit ".png", lit "image/png"),
    (lit ".jpg", lit "image/jpeg"), (lit ".jpeg", lit "image/jpeg"),
    (lit ".gif", lit "image/gif"), (lit ".svg", lit "image/svg+xml"),
    (lit ".ico", lit "image/x-icon"), (lit ".txt", lit "text/plain"),
    (lit ".pdf", lit "application/pdf") ]

/-- The method `StaticFileServer::get_content_type`. -/
def get_content_type (path : CppString) : CppString :=
  match find_last_of path DOT with
  | some dot_pos =>
    let ext := substr path dot_pos none
    match mime_types.lookup ext with
    | some type => type
    | none => lit "application/octet-stream"
  | none => lit "application/octet-stream"

/-- The two output parameters of `parse_request` after the call. -/
structure ParsedRequest where
  path : CppString
  method : CppString
deriving DecidableEq

/-- The method `StaticFileServer::parse_request(request, path, method)`; `path` and
`method` are the values the two reference parameters hold on entry. -/
def parse_request (request path method : CppString) : ParsedRequest :=
  let request_stream := istringstream request
  let first_line := (getline request_stream (lit "") CR).2
  let first_line_stream := istringstream first_line
  let r1 := extract first_line_stream method
  let r2 := extract r1.1 path
  let method := r1.2
  let path := r2.2
  let path := if path == lit "/" then lit "/index.html" else path
  match find path QMARK with
  | some param_pos => { path := substr path 0 (some param_pos), method := method }
  | none => { path := path, method := method }

/-- What a connection handler does that is visible outside it, in order. -/
inductive Event where
  | parse_request (request : CppString)
  | file_exists (path : CppString)
  | read_file (path : CppString)
  | send (data : CppString)
deriving DecidableEq

/-- The 404 response of `send_response`. -/
def not_found : CppString :=
  lit "HTTP/1.1 404 Not Found\r\n" ++ lit "Content-Type: text/plain\r\n" ++
  lit "Content-Length: 9\r\n" ++ lit "\r\n" ++ lit "Not Found"

/-- The 500 response of `send_response`. -/
def server_error : CppString :=
  lit "HTTP/1.1 500 Internal Server Error\r\n" ++ lit "Content-Type: text/plain\r\n" ++
  lit "Content-Length: 21\r\n" ++ lit "\r\n" ++ lit "Internal Server Error"

/-- The header block of the 200 response of `send_response`. -/
def response_header (content_type content : CppString) : CppString :=
  lit "HTTP/1.1 200 OK\r\n" ++ lit "Content-Type: " ++ content_type ++ lit "\r\n" ++
  lit "Content-Length: " ++ to_string content.length ++ lit "\r\n" ++ lit "\r\n"

/-- The method `StaticFileServer::send_response`. -/
def send_response (config : ServerConfig) (fs : FileSystem) (path : CppString) :
    List Event :=
  let full_path := config.root_directory ++ path
  if !file_utils.file_exists fs full_path then
    [Event.file_exists full_path, Event.send not_found]
  else
    match file_utils.read_file fs full_path with
    | Except.error _ =>
      [Event.file_exists full_path, Event.read_file full_path, Event.send server_error]
    | Except.ok content =>
      let content_type := get_content_type path
      [Event.file_exists full_path, Event.read_file full_path,
        Event.send (response_header content_type content), Event.send content]

/-- What the `read` system call on the client socket delivers: a failure
(return value -1) or bytes (none at end of stream). -/
inductive ReadResult where
  | error
  | data (bytes : CppString)
deriving DecidableEq

/-- The system call `read(fd, buffer, count)`: the return value and the buffer afterwards. At
most `count` bytes are stored, from the start of the buffer. -/
def read (incoming : ReadResult) (buffer : List Byte) (count : Nat) :
    Int × List Byte :=
  match incoming with
  | ReadResult.error => (-1, buffer)
  | ReadResult.data bytes =>
    let got := bytes.take count
    ((got.length : Int), got ++ buffer.drop got.length)

/-- The 405 response of `handle_connection`. -/
def method_not_allowed : CppString :=
  lit "HTTP/1.1 405 Method Not Allowed\r\n" ++ lit "Content-Length: 0\r\n" ++ lit "\r\n"

/-- The `std::string request(buffer)` of `handle_connection` after a read
that delivered `bytes` into the zeroed 1024-byte buffer. -/
def request_of (incoming : ReadResult) : CppString :=
  c_str (read incoming (List.replicate 1024 0) (1024 - 1)).2

/-- The method `StaticFileServer::handle_connection`, on a connection whose single
`read` has the outcome `incoming`. -/
def handle_connection (config : ServerConfig) (fs : FileSystem)
    (incoming : ReadResult) : List Event :=
  let buffer : List Byte := List.replicate 1024 0
  let r := read incoming buffer (1024 - 1)
  let bytes_read := r.1
  let buffer := r.2
  if bytes_read ≤ 0 then []
  else
    let request := c_str buffer
    let parsed := parse_request request (lit "") (lit "")
    if parsed.method != lit "GET" then
      [Event.parse_request request, Event.send method_not_allowed]
    else
      Event.parse_request request :: send_response config fs parsed.path

/-- The bytes handed to `send`, in order: what the client receives. -/
def sent (trace : List Event) : CppString :=
  match trace with
  | [] => []
  | Event.send data :: rest => data ++ sent rest
  | _ :: rest => sent rest

/-- The file-system calls of a trace, in order. -/
def fs_calls (trace : List Event) : List Event :=
  trace.filter (fun e =>
    match e with
    | Event.file_exists _ => true
    | Event.read_file _ => true
    | _ => false)


/-! ## Request lines -/

/-- The first line of a request: the text before the first carriage return. -/
def first_line (request : CppString) : CppString :=
  request.takeWhile (fun c => c != CR)

/-- The whitespace-delimited tokens of a line: the pieces between whitespace
characters, empty pieces dropped. -/
def tokens (line : CppString) : List CppString :=
  (line.splitOnP isspace).filter (fun piece => !piece.isEmpty)

/-! ## Socket setup -/

/-- The conversion of an `int` to the `uint16_t` parameter of `htons`:
reduction modulo 2^16. -/
def to_uint16 (x : Int) : Nat := (x % 65536).toNat

/-- The library function `htons` on a little-endian host: the two bytes of a 16-bit value
swapped. -/
def htons (hostshort : Nat) : Nat :=
  (hostshort % 256) * 256 + (hostshort / 256) % 256

/-- The library function `ntohs`, the inverse of `htons`: the port number in host order
that a `sin_port` value stands for. -/
def ntohs (netshort : Nat) : Nat :=
  (netshort % 256) * 256 + (netshort / 256) % 256

/-- What the operating system answers to the calls of `initialize_socket`:
the return values of `socket`, `setsockopt`, `bind` (which may depend on the
port in `sin_port`) and `listen`. -/
structure SocketResults where
  socket : Int
  setsockopt : Int
  bind : Nat → Int
  listen : Int

/-- The system calls of `initialize_socket`, with the arguments that matter
here. -/
inductive SocketCall where
  | socket
  | setsockopt
  | bind (sin_port : Nat)
  | listen (backlog : Nat)
  | close (fd : Int)
deriving DecidableEq

/-- The method `StaticFileServer::initialize_socket`: the listening descriptor or the
message of the `runtime_error` thrown, and the system calls made. -/
def initialize_socket (config : ServerConfig) (os : SocketResults) :
    Except CppString Int × List SocketCall :=
  let server_fd := os.socket
  if server_fd < 0 then
    (Except.error (lit "Failed to create socket"), [SocketCall.socket])
  else if os.setsockopt < 0 then
    (Except.error (lit "Failed to set socket options"),
      [SocketCall.socket, SocketCall.setsockopt, SocketCall.close server_fd])
  else
    let sin_port := htons (to_uint16 config.port)
    if os.bind sin_port < 0 then
      (Except.error (lit "Failed to bind socket to port"),
        [SocketCall.socket, SocketCall.setsockopt, SocketCall.bind sin_port,
          SocketCall.close server_fd])
    else if os.listen < 0 then
      (Except.error (lit "Failed to listen on socket"),
        [SocketCall.socket, SocketCall.setsockopt, SocketCall.bind sin_port,
          SocketCall.listen 10, SocketCall.close server_fd])
    else
      (Except.ok server_fd,
        [SocketCall.socket, SocketCall.setsockopt, SocketCall.bind sin_port,
          SocketCall.listen 10])

/-- The port numbers, in host order, that a list of system calls hands to
`bind`. -/
def bound_ports (calls : List SocketCall) : List Nat :=
  calls.filterMap (fun call =>
    match call with
    | SocketCall.bind sin_port => some (ntohs sin_port)
    | _ => none)

/-! ## The accept loop -/

/-- What one `accept` call returns: the descriptor, negative on failure,
and what the single read on an accepted connection will deliver. -/
structure AcceptResult where
  client_socket : Int
  incoming : ReadResult

/-- Where the loop of `start` stands: at the `accept` call, at the call of
`handle_connection` on an accepted connection, or at the `close` call. -/
inductive Pc where
  | accepting
  | handling (client_socket : Int) (incoming : ReadResult)
  | closing (client_socket : Int)
deriving DecidableEq

/-- State of the loop of `start`: the program point, the client connections
that are open, and the traces of the connections handled so far. -/
structure LoopState where
  pc : Pc
  open_clients : List Int
  served : List (List Event)

/-- The state in which `start` enters its loop. -/
def LoopState.initial : LoopState :=
  { pc := Pc.accepting, open_clients := [], served := [] }

/-- One step of the loop of `start`. At the `accept` call the result `env` of
that call decides: a negative descriptor is logged and the loop continues
with the next `accept`; otherwise the connection is open and is handed to
`handle_connection`. After the handler has returned, the connection is
closed and the loop is back at `accept`. -/
def step (config : ServerConfig) (fs : FileSystem) (s : LoopState) (env : AcceptResult) :
    LoopState :=
  match s.pc with
  | Pc.accepting =>
    if env.client_socket < 0 then s
    else
      { pc := Pc.handling env.client_socket env.incoming,
        open_clients := env.client_socket :: s.open_clients,
        served := s.served }
  | Pc.handling client_socket incoming =>
    { pc := Pc.closing client_socket,
      open_clients := s.open_clients,
      served := s.served ++ [handle_connection config fs incoming] }
  | Pc.closing client_socket =>
    { pc := Pc.accepting,
      open_clients := s.open_clients.erase client_socket,
      served := s.served }

/-- The loop of `start` run for as many steps as there are entries in `envs`;
an entry is consulted only by a step that stands at `accept`. -/
def run (config : ServerConfig) (fs : FileSystem) (s : LoopState)
    (envs : List AcceptResult) : LoopState :=
  envs.foldl (step config fs) s

/-- What holds at every point of the loop of `start`: at `accept` no client
connection is open; while a connection is handled or about to be closed, it
is the one open connection. -/
def LoopState.invariant (s : LoopState) : Prop :=
  match s.pc with
  | Pc.accepting => s.open_clients = []
  | Pc.handling client_socket _ => s.open_clients = [client_socket]
  | Pc.closing client_socket => s.open_clients = [client_socket]

/-! ## Sample inputs -/

/-- An operating system on which every call of `initialize_socket`
succeeds; `socket` returns descriptor 3. -/
def sample_os : SocketResults :=
  { socket := 3, setsockopt := 0, bind := fun _ => 0, listen := 0 }


/-- The default configuration: port 8080, root `./public`. -/
def default_config : ServerConfig :=
  { port := 8080, root_directory := lit "./public" }

/-- A file system holding `./public/index.html` (15 bytes of HTML),
`./public/blob.bin` (five bytes, two of them NUL) and `./public/locked.txt`,
which exists but cannot be opened. -/
def sample_fs : FileSystem :=
  { stat := fun p =>
      p == lit "./public/index.html" || p == lit "./public/blob.bin" ||
        p == lit "./public/locked.txt"
    ifstream := fun p =>
      if p == lit "./public/index.html" then some (lit "<html>hi</html>")
      else if p == lit "./public/blob.bin" then some [0, 255, 13, 10, 0]
      else none }

/-! ## Shared lemmas -/

theorem digitChar_byte (k : Nat) (hk : k < 10) :
    (UInt8.ofNat (Nat.digitChar k).toNat).toNat - 48 = k := by
  interval_cases k <;> rfl

theorem toDigitsCore_value (fuel : Nat) :
    ∀ (n : Nat) (ds : List Char), n < fuel →
      List.foldl (fun acc c => 10 * acc + ((UInt8.ofNat (Char.toNat c)).toNat - 48)) 0
          (Nat.toDigitsCore 10 fuel n ds) =
        List.foldl (fun acc c => 10 * acc + ((UInt8.ofNat (Char.toNat c)).toNat - 48)) n ds := by
  induction fuel with
  | zero => intro n ds h; omega
  | succ fuel ih =>
    intro n ds h
    have hd := digitChar_byte (n % 10) (Nat.mod_lt n (by decide))
    simp only [Nat.toDigitsCore]
    by_cases h0 : n / 10 = 0
    · simp only [h0, if_true, List.foldl_cons, hd]
      have : n % 10 = n := by omega
      simp [this]
    · simp only [h0, if_false]
      rw [ih (n / 10) _ (by omega)]
      simp only [List.foldl_cons, hd]
      have : 10 * (n / 10) + n % 10 = n := by omega
      rw [this]

/-- The digits `to_string` writes denote the number it was given. -/
theorem decimal_value_to_string (n : Nat) : decimal_value (to_string n) = n := by
  unfold decimal_value to_string Nat.toDigits
  rw [List.foldl_map]
  rw [toDigitsCore_value (n + 1) n [] (by omega)]
  rfl

theorem read_data_pos (bytes : CppString) (buffer : List Byte) (count : Nat)
    (hb : bytes ≠ []) (hc : 0 < count) :
    ¬ (read (ReadResult.data bytes) buffer count).1 ≤ 0 := by
  cases bytes with
  | nil => exact absurd rfl hb
  | cons b bs =>
    cases count with
    | zero => omega
    | succ n =>
      simp only [read, List.take_succ_cons, List.length_cons]
      omega

/-- After a read that delivered at least one byte, the handler parses the
request and branches on the method. -/
theorem handle_connection_data (config : ServerConfig) (fs : FileSystem)
    (bytes : CppString) (hb : bytes ≠ []) :
    handle_connection config fs (ReadResult.data bytes) =
      if (parse_request (request_of (ReadResult.data bytes)) (lit "") (lit "")).method
          != lit "GET" then
        [Event.parse_request (request_of (ReadResult.data bytes)),
          Event.send method_not_allowed]
      else
        Event.parse_request (request_of (ReadResult.data bytes)) ::
          send_response config fs
            (parse_request (request_of (ReadResult.data bytes)) (lit "") (lit "")).path := by
  have h := read_data_pos bytes (List.replicate 1024 0) (1024 - 1) hb (by decide)
  unfold handle_connection
  simp only [h, if_false]
  rfl

theorem handle_connection_get (config : ServerConfig) (fs : FileSystem)
    (bytes path : CppString) (hb : bytes ≠ [])
    (hp : parse_request (request_of (ReadResult.data bytes)) (lit "") (lit "") =
      { path := path, method := lit "GET" }) :
    handle_connection config fs (ReadResult.data bytes) =
      Event.parse_request (request_of (ReadResult.data bytes)) ::
        send_response config fs path := by
  rw [handle_connection_data config fs bytes hb, hp]
  simp

theorem sent_parse_cons (request : CppString) (trace : List Event) :
    sent (Event.parse_request request :: trace) = sent trace := rfl

theorem send_response_ok (config : ServerConfig) (fs : FileSystem) (path B : CppString)
    (hexists : file_utils.file_exists fs (config.root_directory ++ path) = true)
    (hread : file_utils.read_file fs (config.root_directory ++ path) = Except.ok B) :
    send_response config fs path =
      [Event.file_exists (config.root_directory ++ path),
        Event.read_file (config.root_directory ++ path),
        Event.send (response_header (get_content_type path) B), Event.send B] := by
  unfold send_response
  simp [hexists, hread]

theorem send_response_missing (config : ServerConfig) (fs : FileSystem) (path : CppString)
    (hmissing : file_utils.file_exists fs (config.root_directory ++ path) = false) :
    send_response config fs path =
      [Event.file_exists (config.root_directory ++ path), Event.send not_found] := by
  unfold send_response
  simp [hmissing]

theorem send_response_unreadable (config : ServerConfig) (fs : FileSystem)
    (path cause : CppString)
    (hexists : file_utils.file_exists fs (config.root_directory ++ path) = true)
    (hread : file_utils.read_file fs (config.root_directory ++ path) = Except.error cause) :
    send_response config fs path =
      [Event.file_exists (config.root_directory ++ path),
        Event.read_file (config.root_directory ++ path), Event.send server_error] := by
  unfold send_response
  simp [hexists, hread]

theorem response_header_eq (content_type B : CppString) :
    response_header content_type B ++ B =
      lit "HTTP/1.1 200 OK\r\nContent-Type: " ++ content_type ++
        lit "\r\nContent-Length: " ++ to_string B.length ++ lit "\r\n\r\n" ++ B := by
  have h1 : lit "HTTP/1.1 200 OK\r\nContent-Type: " =
      lit "HTTP/1.1 200 OK\r\n" ++ lit "Content-Type: " := by decide
  have h2 : lit "\r\nContent-Length: " = lit "\r\n" ++ lit "Content-Length: " := by decide
  have h3 : lit "\r\n\r\n" = lit "\r\n" ++ lit "\r\n" := by decide
  rw [h1, h2, h3]
  simp [response_header, List.append_assoc]

theorem not_found_eq :
    not_found =
      lit "HTTP/1.1 404 Not Found\r\nContent-Type: text/plain\r\nContent-Length: 9\r\n\r\nNot Found" := by
  decide

theorem server_error_eq :
    server_error =
      lit "HTTP/1.1 500 Internal Server Error\r\nContent-Type: text/plain\r\nContent-Length: 21\r\n\r\nInternal Server Error" := by
  decide

theorem method_not_allowed_eq :
    method_not_allowed =
      lit "HTTP/1.1 405 Method Not Allowed\r\nContent-Length: 0\r\n\r\n" := by
  decide


/-! ## The four response shapes -/

/-- C1: when `root_directory + path` exists and `read_file` returns the bytes
`B`, `send_response` emits exactly the 200 header block with
`get_content_type path` and the decimal length of `B`, followed by `B`
itself, whatever bytes `B` holds; the decimal digits of the declared
`Content-Length` denote the length of `B`; and a connection whose read is not
empty and parses to method `GET` and this path receives exactly those bytes. -/
theorem C1_ok_response (config : ServerConfig) (fs : FileSystem) (path B : CppString)
    (hexists : file_utils.file_exists fs (config.root_directory ++ path) = true)
    (hread : file_utils.read_file fs (config.root_directory ++ path) = Except.ok B) :
    sent (send_response config fs path) =
        lit "HTTP/1.1 200 OK\r\nContent-Type: " ++ get_content_type path ++
          lit "\r\nContent-Length: " ++ to_string B.length ++ lit "\r\n\r\n" ++ B ∧
    decimal_value (to_string B.length) = B.length ∧
    (∀ bytes : CppString, bytes ≠ [] →
      parse_request (request_of (ReadResult.data bytes)) (lit "") (lit "") =
        { path := path, method := lit "GET" } →
      sent (handle_connection config fs (ReadResult.data bytes)) =
        lit "HTTP/1.1 200 OK\r\nContent-Type: " ++ get_content_type path ++
          lit "\r\nContent-Length: " ++ to_string B.length ++ lit "\r\n\r\n" ++ B) := by
  have hs : sent (send_response config fs path) =
      response_header (get_content_type path) B ++ B := by
    rw [send_response_ok config fs path B hexists hread]
    simp [sent]
  refine ⟨?_, decimal_value_to_string B.length, ?_⟩
  · rw [hs, response_header_eq]
  · intro bytes hb hp
    rw [handle_connection_get config fs bytes path hb hp, sent_parse_cons, hs,
      response_header_eq]

/-- C2: when `root_directory + path` does not exist, `send_response` emits
exactly the 404 response and makes no `read_file` call; the declared length 9
is the length of the body `Not Found`; and a connection whose read is not
empty and parses to method `GET` and this path receives exactly the 404
response, again with no `read_file` call. -/
theorem C2_not_found (config : ServerConfig) (fs : FileSystem) (path : CppString)
    (hmissing : file_utils.file_exists fs (config.root_directory ++ path) = false) :
    sent (send_response config fs path) =
        lit "HTTP/1.1 404 Not Found\r\nContent-Type: text/plain\r\nContent-Length: 9\r\n\r\nNot Found" ∧
    (∀ p, Event.read_file p ∉ send_response config fs path) ∧
    (lit "Not Found").length = 9 ∧
    (∀ bytes : CppString, bytes ≠ [] →
      parse_request (request_of (ReadResult.data bytes)) (lit "") (lit "") =
        { path := path, method := lit "GET" } →
      sent (handle_connection config fs (ReadResult.data bytes)) =
          lit "HTTP/1.1 404 Not Found\r\nContent-Type: text/plain\r\nContent-Length: 9\r\n\r\nNot Found" ∧
      ∀ p, Event.read_file p ∉ handle_connection config fs (ReadResult.data bytes)) := by
  have hs := send_response_missing config fs path hmissing
  refine ⟨?_, ?_, by decide, ?_⟩
  · rw [hs, ← not_found_eq]
    simp [sent]
  · intro p
    rw [hs]
    simp
  · intro bytes hb hp
    rw [handle_connection_get config fs bytes path hb hp, hs, ← not_found_eq]
    refine ⟨by simp [sent], ?_⟩
    intro p
    simp

/-- C3: when the read is not empty and the parsed method is not exactly `GET`,
`handle_connection` emits exactly the 405 response, which ends with the blank
line (no body), and makes no file-system call: its whole trace is the parse
followed by that one `send`. -/
theorem C3_method_not_allowed (config : ServerConfig) (fs : FileSystem) (bytes : CppString)
    (hb : bytes ≠ [])
    (hm : (parse_request (request_of (ReadResult.data bytes)) (lit "") (lit "")).method ≠
      lit "GET") :
    sent (handle_connection config fs (ReadResult.data bytes)) =
        lit "HTTP/1.1 405 Method Not Allowed\r\nContent-Length: 0\r\n\r\n" ∧
    fs_calls (handle_connection config fs (ReadResult.data bytes)) = [] ∧
    handle_connection config fs (ReadResult.data bytes) =
      [Event.parse_request (request_of (ReadResult.data bytes)),
        Event.send (lit "HTTP/1.1 405 Method Not Allowed\r\nContent-Length: 0\r\n\r\n")] := by
  have h : handle_connection config fs (ReadResult.data bytes) =
      [Event.parse_request (request_of (ReadResult.data bytes)),
        Event.send method_not_allowed] := by
    rw [handle_connection_data config fs bytes hb]
    simp [hm]
  rw [h, ← method_not_allowed_eq]
  refine ⟨by simp [sent], by simp [fs_calls], rfl⟩

/-- C4: when `root_directory + path` exists and `read_file` throws, whatever
the exception says, `send_response` emits exactly the fixed 500 response; the
declared length 21 is the length of the body `Internal Server Error`; and a
connection whose read is not empty and parses to method `GET` and this path
receives exactly that response. -/
theorem C4_read_failure (config : ServerConfig) (fs : FileSystem) (path cause : CppString)
    (hexists : file_utils.file_exists fs (config.root_directory ++ path) = true)
    (hread : file_utils.read_file fs (config.root_directory ++ path) = Except.error cause) :
    sent (send_response config fs path) =
        lit "HTTP/1.1 500 Internal Server Error\r\nContent-Type: text/plain\r\nContent-Length: 21\r\n\r\nInternal Server Error" ∧
    (lit "Internal Server Error").length = 21 ∧
    (∀ bytes : CppString, bytes ≠ [] →
      parse_request (request_of (ReadResult.data bytes)) (lit "") (lit "") =
        { path := path, method := lit "GET" } →
      sent (handle_connection config fs (ReadResult.data bytes)) =
        lit "HTTP/1.1 500 Internal Server Error\r\nContent-Type: text/plain\r\nContent-Length: 21\r\n\r\nInternal Server Error") := by
  have hs := send_response_unreadable config fs path cause hexists hread
  refine ⟨?_, by decide, ?_⟩
  · rw [hs, ← server_error_eq]
    simp [sent]
  · intro bytes hb hp
    rw [handle_connection_get config fs bytes path hb hp, hs, ← server_error_eq]
    simp [sent]


/-- C1 at the binary file `./public/blob.bin` of the sample file system. -/
theorem C1_ok_response_witness :
    file_utils.file_exists sample_fs (default_config.root_directory ++ lit "/blob.bin") = true ∧
    file_utils.read_file sample_fs (default_config.root_directory ++ lit "/blob.bin") =
      Except.ok [0, 255, 13, 10, 0] ∧
    sent (send_response default_config sample_fs (lit "/blob.bin")) =
      lit "HTTP/1.1 200 OK\r\nContent-Type: application/octet-stream\r\nContent-Length: 5\r\n\r\n" ++
        [0, 255, 13, 10, 0] :=
  ⟨by decide, rfl,
    (C1_ok_response default_config sample_fs (lit "/blob.bin") [0, 255, 13, 10, 0]
      (by decide) rfl).1.trans (by decide)⟩

/-- C2 at the missing file `./public/nothing.html` of the sample file system. -/
theorem C2_not_found_witness :
    file_utils.file_exists sample_fs (default_config.root_directory ++ lit "/nothing.html") = false ∧
    sent (send_response default_config sample_fs (lit "/nothing.html")) =
      lit "HTTP/1.1 404 Not Found\r\nContent-Type: text/plain\r\nContent-Length: 9\r\n\r\nNot Found" :=
  ⟨by decide,
    (C2_not_found default_config sample_fs (lit "/nothing.html") (by decide)).1⟩

/-- C3 at a `POST` request, a `HEAD` request, a lower-case `get`, a request
line without any token, and a read whose first byte is NUL (the request
string is then empty): each receives the 405 response. -/
theorem C3_method_not_allowed_witness :
    lit "POST /index.html HTTP/1.1\r\n\r\n" ≠ [] ∧
    (parse_request (request_of (ReadResult.data (lit "POST /index.html HTTP/1.1\r\n\r\n")))
      (lit "") (lit "")).method ≠ lit "GET" ∧
    sent (handle_connection default_config sample_fs
        (ReadResult.data (lit "POST /index.html HTTP/1.1\r\n\r\n"))) =
      lit "HTTP/1.1 405 Method Not Allowed\r\nContent-Length: 0\r\n\r\n" ∧
    sent (handle_connection default_config sample_fs
        (ReadResult.data (lit "HEAD /index.html HTTP/1.1\r\n\r\n"))) =
      lit "HTTP/1.1 405 Method Not Allowed\r\nContent-Length: 0\r\n\r\n" ∧
    sent (handle_connection default_config sample_fs
        (ReadResult.data (lit "get /index.html HTTP/1.1\r\n\r\n"))) =
      lit "HTTP/1.1 405 Method Not Allowed\r\nContent-Length: 0\r\n\r\n" ∧
    sent (handle_connection default_config sample_fs
        (ReadResult.data (lit "\r\n\r\n"))) =
      lit "HTTP/1.1 405 Method Not Allowed\r\nContent-Length: 0\r\n\r\n" ∧
    sent (handle_connection default_config sample_fs
        (ReadResult.data (NUL :: lit "GET /index.html HTTP/1.1\r\n\r\n"))) =
      lit "HTTP/1.1 405 Method Not Allowed\r\nContent-Length: 0\r\n\r\n" :=
  ⟨by decide, by decide,
    (C3_method_not_allowed default_config sample_fs (lit "POST /index.html HTTP/1.1\r\n\r\n")
      (by decide) (by decide)).1,
    (C3_method_not_allowed default_config sample_fs (lit "HEAD /index.html HTTP/1.1\r\n\r\n")
      (by decide) (by decide)).1,
    (C3_method_not_allowed default_config sample_fs (lit "get /index.html HTTP/1.1\r\n\r\n")
      (by decide) (by decide)).1,
    (C3_method_not_allowed default_config sample_fs (lit "\r\n\r\n")
      (by decide) (by decide)).1,
    (C3_method_not_allowed default_config sample_fs
      (NUL :: lit "GET /index.html HTTP/1.1\r\n\r\n") (by decide) (by decide)).1⟩

/-- C4 at `./public/locked.txt` of the sample file system, which exists and
cannot be opened. -/
theorem C4_read_failure_witness :
    file_utils.file_exists sample_fs (default_config.root_directory ++ lit "/locked.txt") = true ∧
    file_utils.read_file sample_fs (default_config.root_directory ++ lit "/locked.txt") =
      Except.error (lit "Cannot open file: ./public/locked.txt") ∧
    sent (send_response default_config sample_fs (lit "/locked.txt")) =
      lit "HTTP/1.1 500 Internal Server Error\r\nContent-Type: text/plain\r\nContent-Length: 21\r\n\r\nInternal Server Error" :=
  ⟨by decide, rfl,
    (C4_read_failure default_config sample_fs (lit "/locked.txt")
      (lit "Cannot open file: ./public/locked.txt") (by decide) rfl).1⟩


theorem getline_snd (s str : CppString) (delim : Byte) :
    (getline (istringstream s) str delim).2 = s.takeWhile (fun c => c != delim) := by
  unfold getline
  simp only [istringstream, IStringStream.good, Bool.not_false, Bool.and_self, Bool.not_true,
    Bool.false_eq_true, if_false]
  split <;> rfl

theorem takeWhile_stop {p : Byte → Bool} (tok rest : CppString)
    (htok : ∀ c ∈ tok, p c = true)
    (hrest : rest = [] ∨ ∃ c r, rest = c :: r ∧ p c = false) :
    (tok ++ rest).takeWhile p = tok := by
  rw [List.takeWhile_append_of_pos htok]
  rcases hrest with h | ⟨c, r, h, hc⟩
  · simp [h]
  · simp [h, hc]

theorem dropWhile_stop {p : Byte → Bool} (tok rest : CppString)
    (htok : ∀ c ∈ tok, p c = true)
    (hrest : rest = [] ∨ ∃ c r, rest = c :: r ∧ p c = false) :
    (tok ++ rest).dropWhile p = rest := by
  rw [List.dropWhile_append_of_pos htok]
  rcases hrest with h | ⟨c, r, h, hc⟩
  · simp [h]
  · simp [h, hc]

/-- The extractor on a good stream holding whitespace, then a token, then
either nothing or more input that starts with whitespace: the token is
delivered and the stream stands right after it. -/
theorem extract_token (ws tok rest str : CppString)
    (hws : ∀ c ∈ ws, isspace c = true)
    (hne : tok ≠ []) (htok : ∀ c ∈ tok, isspace c = false)
    (hrest : rest = [] ∨ ∃ c r, rest = c :: r ∧ isspace c = true) :
    extract { buf := ws ++ (tok ++ rest), eofbit := false, failbit := false } str =
      ({ buf := rest, eofbit := rest.isEmpty, failbit := false }, tok) := by
  have htok' : ∀ c ∈ tok, (fun b => !isspace b) c = true := by
    intro c hc
    simp [htok c hc]
  have hrest' : rest = [] ∨ ∃ c r, rest = c :: r ∧ (fun b => !isspace b) c = false := by
    rcases hrest with h | ⟨c, r, h, hc⟩
    · exact Or.inl h
    · exact Or.inr ⟨c, r, h, by simp [hc]⟩
  have h1 : (ws ++ (tok ++ rest)).dropWhile isspace = tok ++ rest := by
    rw [List.dropWhile_append_of_pos hws]
    cases tok with
    | nil => exact absurd rfl hne
    | cons t ts =>
      have := htok t (List.mem_cons_self t ts)
      simp [this]
  unfold extract
  simp only [IStringStream.good, Bool.not_false, Bool.and_self, Bool.not_true, h1]
  cases tok with
  | nil => exact absurd rfl hne
  | cons t ts =>
    simp only [List.cons_append, Bool.false_eq_true, if_false]
    rw [← List.cons_append, takeWhile_stop (t :: ts) rest htok' hrest',
      dropWhile_stop (t :: ts) rest htok' hrest']


theorem ne_CR_of_not_space (c : Byte) (h : isspace c = false) : (c != CR) = true := by
  by_cases hc : c = CR
  · subst hc
    exact absurd h (by decide)
  · simpa using hc

theorem takeWhile_after (after : CppString)
    (hafter : after = [] ∨ ∃ c r, after = c :: r ∧ isspace c = true) :
    after.takeWhile (fun c => c != CR) = [] ∨
      ∃ c r, after.takeWhile (fun c => c != CR) = c :: r ∧ isspace c = true := by
  rcases hafter with h | ⟨c, r, h, hc⟩
  · left
    simp [h]
  · subst h
    by_cases hcr : c = CR
    · left
      simp [hcr]
    · right
      exact ⟨c, r.takeWhile (fun c => c != CR), by simp [hcr], hc⟩

/-- The request line `METHOD SP TARGET` followed by nothing or by whitespace
and anything: the two tokens are extracted, then the path is post-processed. -/
theorem parse_request_tokens (METHOD TARGET after path method : CppString)
    (hM : METHOD ≠ []) (hMs : ∀ c ∈ METHOD, isspace c = false)
    (hT : TARGET ≠ []) (hTs : ∀ c ∈ TARGET, isspace c = false)
    (hafter : after = [] ∨ ∃ c r, after = c :: r ∧ isspace c = true) :
    parse_request (METHOD ++ SP :: (TARGET ++ after)) path method =
      match find (if TARGET == lit "/" then lit "/index.html" else TARGET) QMARK with
      | some param_pos =>
        { path := substr (if TARGET == lit "/" then lit "/index.html" else TARGET) 0
            (some param_pos),
          method := METHOD }
      | none =>
        { path := if TARGET == lit "/" then lit "/index.html" else TARGET, method := METHOD } := by
  have hline : (getline (istringstream (METHOD ++ SP :: (TARGET ++ after))) (lit "") CR).2 =
      METHOD ++ SP :: (TARGET ++ after.takeWhile (fun c => c != CR)) := by
    rw [getline_snd]
    rw [List.takeWhile_append_of_pos (fun c hc => ne_CR_of_not_space c (hMs c hc))]
    have hsp : (SP != CR) = true := by decide
    rw [List.takeWhile_cons, if_pos hsp]
    rw [List.takeWhile_append_of_pos (fun c hc => ne_CR_of_not_space c (hTs c hc))]
  have hafter' := takeWhile_after after hafter
  have h1 := extract_token [] METHOD (SP :: (TARGET ++ after.takeWhile (fun c => c != CR)))
    method (by simp) hM hMs (Or.inr ⟨SP, _, rfl, by decide⟩)
  have h2 := extract_token [SP] TARGET (after.takeWhile (fun c => c != CR)) path
    (by intro c hc; rw [List.mem_singleton] at hc; subst hc; decide) hT hTs hafter'
  simp only [List.nil_append, List.isEmpty_cons, List.singleton_append] at h1 h2
  unfold parse_request
  simp only [hline]
  simp only [istringstream, h1, h2]


theorem find_none (s : CppString) (ch : Byte) (h : ch ∉ s) : find s ch = none := by
  induction s with
  | nil => rfl
  | cons c cs ih =>
    have hc : ¬ c = ch := fun e => h (e ▸ List.mem_cons_self c cs)
    have hcs : ch ∉ cs := fun e => h (List.mem_cons_of_mem c e)
    simp [find, hc, ih hcs]

theorem find_append_cons (p q : CppString) (ch : Byte) (h : ch ∉ p) :
    find (p ++ ch :: q) ch = some p.length := by
  induction p with
  | nil => simp [find]
  | cons c cs ih =>
    have hc : ¬ c = ch := fun e => h (e ▸ List.mem_cons_self c cs)
    have hcs : ch ∉ cs := fun e => h (List.mem_cons_of_mem c e)
    simp [find, hc, ih hcs]

/-- A first line that holds one token only, possibly followed by blanks. -/
theorem takeWhile_blanks (blanks tail : CppString)
    (hb : ∀ c ∈ blanks, isspace c = true) (ht : tail = [] ∨ ∃ r, tail = CR :: r) :
    ∀ c ∈ (blanks ++ tail).takeWhile (fun c => c != CR), isspace c = true := by
  induction blanks with
  | nil =>
    rcases ht with h | ⟨r, h⟩ <;> simp [h]
  | cons b bs ih =>
    intro c hc
    have hbs : ∀ c ∈ bs, isspace c = true := fun c h => hb c (List.mem_cons_of_mem b h)
    rw [List.cons_append, List.takeWhile_cons] at hc
    split at hc
    · rcases List.mem_cons.1 hc with h | h
      · exact h ▸ hb b (List.mem_cons_self b bs)
      · exact ih hbs c h
    · exact absurd hc (List.not_mem_nil c)

/-- The extractor finds no token on a stream that is at its end or holds
blanks only, and leaves the string alone. -/
theorem extract_none (s : IStringStream) (str : CppString)
    (hb : ∀ c ∈ s.buf, isspace c = true) : (extract s str).2 = str := by
  unfold extract
  split
  · rfl
  · have : s.buf.dropWhile isspace = [] := by
      rw [List.dropWhile_eq_nil_iff]
      exact hb
    rw [this]

/-- A request line that holds the method token only: the method is
extracted and the path keeps the value it had on entry, post-processed. -/
theorem parse_request_single_token (METHOD blanks tail path method : CppString)
    (hM : METHOD ≠ []) (hMs : ∀ c ∈ METHOD, isspace c = false)
    (hb : ∀ c ∈ blanks, isspace c = true) (ht : tail = [] ∨ ∃ r, tail = CR :: r) :
    parse_request (METHOD ++ (blanks ++ tail)) path method =
      match find (if path == lit "/" then lit "/index.html" else path) QMARK with
      | some param_pos =>
        { path := substr (if path == lit "/" then lit "/index.html" else path) 0
            (some param_pos),
          method := METHOD }
      | none =>
        { path := if path == lit "/" then lit "/index.html" else path, method := METHOD } := by
  have hline : (getline (istringstream (METHOD ++ (blanks ++ tail))) (lit "") CR).2 =
      METHOD ++ (blanks ++ tail).takeWhile (fun c => c != CR) := by
    rw [getline_snd]
    rw [List.takeWhile_append_of_pos (fun c hc => ne_CR_of_not_space c (hMs c hc))]
  have hbl := takeWhile_blanks blanks tail hb ht
  have hrest : (blanks ++ tail).takeWhile (fun c => c != CR) = [] ∨
      ∃ c r, (blanks ++ tail).takeWhile (fun c => c != CR) = c :: r ∧ isspace c = true := by
    cases hl : (blanks ++ tail).takeWhile (fun c => c != CR) with
    | nil => exact Or.inl rfl
    | cons c r =>
      right
      exact ⟨c, r, rfl, hbl c (hl ▸ List.mem_cons_self c r)⟩
  have h1 := extract_token [] METHOD ((blanks ++ tail).takeWhile (fun c => c != CR))
    method (by simp) hM hMs hrest
  have h2 := extract_none
    { buf := (blanks ++ tail).takeWhile (fun c => c != CR),
      eofbit := ((blanks ++ tail).takeWhile (fun c => c != CR)).isEmpty, failbit := false }
    path hbl
  simp only [List.nil_append] at h1
  unfold parse_request
  simp only [hline]
  simp only [istringstream, h1, h2]


/-! ## The request parser -/

/-- C5: for a request `METHOD SP TARGET SP rest`, where `METHOD` is a
non-empty whitespace-free token, `TARGET` is whitespace-free and splits at its
first `?` into `p` and `q`, and `rest` (the version and all that follows, the
first carriage return and the bytes after it included) is arbitrary,
`parse_request` yields the path `p`: the part of the target before its first
`?`. -/
theorem C5_query_stripped (METHOD TARGET p q rest path method : CppString)
    (hM : METHOD ≠ []) (hMs : ∀ c ∈ METHOD, isspace c = false)
    (hTs : ∀ c ∈ TARGET, isspace c = false)
    (hT : TARGET = p ++ QMARK :: q) (hp : QMARK ∉ p) :
    (parse_request (METHOD ++ [SP] ++ TARGET ++ [SP] ++ rest) path method).path = p := by
  have hne : TARGET ≠ [] := by
    rw [hT]
    simp
  have hroot : ¬ TARGET = lit "/" := by
    intro h
    have hq : QMARK ∈ TARGET := by
      rw [hT]
      simp
    rw [h] at hq
    exact absurd hq (by decide)
  have h := parse_request_tokens METHOD TARGET (SP :: rest) path method hM hMs hne hTs
    (Or.inr ⟨SP, rest, rfl, by decide⟩)
  have hreq : METHOD ++ [SP] ++ TARGET ++ [SP] ++ rest =
      METHOD ++ SP :: (TARGET ++ SP :: rest) := by
    simp
  rw [hreq, h]
  have hf : find TARGET QMARK = some p.length := by
    rw [hT]
    exact find_append_cons p q QMARK hp
  simp only [beq_iff_eq, hroot, if_false, hf]
  simp [substr, hT]

/-- C5 at the request of the specification, `GET /a.html?x=1 HTTP/1.1` and
header lines. -/
theorem C5_query_stripped_witness :
    lit "GET" ≠ [] ∧ (∀ c ∈ lit "GET", isspace c = false) ∧
    (∀ c ∈ lit "/a.html?x=1", isspace c = false) ∧
    lit "/a.html?x=1" = lit "/a.html" ++ QMARK :: lit "x=1" ∧ QMARK ∉ lit "/a.html" ∧
    (parse_request
      (lit "GET" ++ [SP] ++ lit "/a.html?x=1" ++ [SP] ++ lit "HTTP/1.1\r\nHost: a\r\n\r\n")
      (lit "") (lit "")).path = lit "/a.html" :=
  ⟨by decide, by decide, by decide, by decide, by decide,
    C5_query_stripped (lit "GET") (lit "/a.html?x=1") (lit "/a.html") (lit "x=1")
      (lit "HTTP/1.1\r\nHost: a\r\n\r\n") (lit "") (lit "")
      (by decide) (by decide) (by decide) (by decide) (by decide)⟩

/-- C6 as stated does not hold: a request line without a target, and one
whose target is empty, do not yield `/index.html`. With `GET` alone on the
line the path stays empty; with an empty target before the version the
version token is taken as the path. -/
theorem C6_root_target_counterexample :
    (parse_request (lit "GET\r\nHost: a\r\n\r\n") (lit "") (lit "")).path = lit "" ∧
    (parse_request (lit "GET\r\nHost: a\r\n\r\n") (lit "") (lit "")).path ≠ lit "/index.html" ∧
    (parse_request (lit "GET  HTTP/1.1\r\n\r\n") (lit "") (lit "")).path = lit "HTTP/1.1" ∧
    (parse_request (lit "GET  HTTP/1.1\r\n\r\n") (lit "") (lit "")).path ≠ lit "/index.html" := by
  decide

/-- C6 as amended: a request line `METHOD SP /`, followed by nothing or by
whitespace and anything, yields the path `/index.html`; a request line that
holds the method token only (then blanks, then the end or a carriage
return), parsed with an empty path on entry as `handle_connection` does,
yields the empty path. -/
theorem C6_root_target (METHOD : CppString)
    (hM : METHOD ≠ []) (hMs : ∀ c ∈ METHOD, isspace c = false) :
    (∀ after path method : CppString,
      (after = [] ∨ ∃ c r, after = c :: r ∧ isspace c = true) →
      (parse_request (METHOD ++ [SP] ++ lit "/" ++ after) path method).path =
        lit "/index.html") ∧
    (∀ blanks tail : CppString,
      (∀ c ∈ blanks, isspace c = true) → (tail = [] ∨ ∃ r, tail = CR :: r) →
      (parse_request (METHOD ++ blanks ++ tail) (lit "") (lit "")).path = lit "") := by
  constructor
  · intro after path method hafter
    have h := parse_request_tokens METHOD (lit "/") after path method hM hMs
      (by decide) (by decide) hafter
    have hreq : METHOD ++ [SP] ++ lit "/" ++ after = METHOD ++ SP :: (lit "/" ++ after) := by
      simp
    rw [hreq, h]
    have hf : find (lit "/index.html") QMARK = none := by decide
    simp [hf]
  · intro blanks tail hb ht
    have h := parse_request_single_token METHOD blanks tail (lit "") (lit "") hM hMs hb ht
    rw [List.append_assoc, h]
    rfl

/-- C6 as amended, at the method `GET`: `GET / HTTP/1.1` yields
`/index.html`. -/
theorem C6_root_target_witness :
    lit "GET" ≠ [] ∧ (∀ c ∈ lit "GET", isspace c = false) ∧
    (parse_request (lit "GET" ++ [SP] ++ lit "/" ++ lit " HTTP/1.1\r\n\r\n") (lit "")
      (lit "")).path = lit "/index.html" :=
  ⟨by decide, by decide,
    (C6_root_target (lit "GET") (by decide) (by decide)).1 (lit " HTTP/1.1\r\n\r\n") (lit "")
      (lit "") (Or.inr ⟨SP, lit "HTTP/1.1\r\n\r\n", by decide, by decide⟩)⟩


theorem find_last_of_none (s : CppString) (ch : Byte) (h : ch ∉ s) :
    find_last_of s ch = none := by
  induction s with
  | nil => rfl
  | cons c cs ih =>
    have hc : ¬ c = ch := fun e => h (e ▸ List.mem_cons_self c cs)
    have hcs : ch ∉ cs := fun e => h (List.mem_cons_of_mem c e)
    simp [find_last_of, hc, ih hcs]

theorem find_last_of_append_cons (pre suf : CppString) (ch : Byte) (h : ch ∉ suf) :
    find_last_of (pre ++ ch :: suf) ch = some pre.length := by
  induction pre with
  | nil => simp [find_last_of, find_last_of_none suf ch h]
  | cons c cs ih => simp [find_last_of, ih]

/-- A string that holds `ch` splits at the last occurrence of `ch`. -/
theorem exists_last_occurrence (s : CppString) (ch : Byte) (h : ch ∈ s) :
    ∃ pre suf, s = pre ++ ch :: suf ∧ ch ∉ suf := by
  induction s with
  | nil => exact absurd h (List.not_mem_nil ch)
  | cons c cs ih =>
    by_cases hcs : ch ∈ cs
    · obtain ⟨pre, suf, hs, hn⟩ := ih hcs
      exact ⟨c :: pre, suf, by rw [hs, List.cons_append], hn⟩
    · rcases List.mem_cons.1 h with e | e
      · exact ⟨[], cs, by rw [e, List.nil_append], hcs⟩
      · exact absurd e hcs

theorem get_file_extension_split (pre suf : CppString) (h : DOT ∉ suf) :
    file_utils.get_file_extension (pre ++ DOT :: suf) = DOT :: suf := by
  unfold file_utils.get_file_extension
  rw [find_last_of_append_cons pre suf DOT h]
  simp [substr]

theorem get_file_extension_no_dot (path : CppString) (h : DOT ∉ path) :
    file_utils.get_file_extension path = [] := by
  unfold file_utils.get_file_extension
  rw [find_last_of_none path DOT h]
  rfl

/-! ## Extensions and content types -/

/-- C8: `get_file_extension` returns the suffix of the path that starts at its
last `.`: the result is empty exactly when the path holds no `.`; when the
path splits at its last `.` into `pre` and `suf`, the result is `.` followed
by `suf`; the path is some prefix followed by the result; and a non-empty
result starts with `.` and holds no other `.`. The five examples of the tests
evaluate as stated. -/
theorem C8_get_file_extension (path : CppString) :
    (file_utils.get_file_extension path = [] ↔ DOT ∉ path) ∧
    (∀ pre suf, path = pre ++ DOT :: suf → DOT ∉ suf →
      file_utils.get_file_extension path = DOT :: suf) ∧
    (∃ pre, path = pre ++ file_utils.get_file_extension path) ∧
    (file_utils.get_file_extension path ≠ [] →
      ∃ suf, file_utils.get_file_extension path = DOT :: suf ∧ DOT ∉ suf) ∧
    file_utils.get_file_extension (lit "file.with.multiple.dots") = lit ".dots" ∧
    file_utils.get_file_extension (lit "archive.tar.gz") = lit ".gz" ∧
    file_utils.get_file_extension (lit ".gitignore") = lit ".gitignore" ∧
    file_utils.get_file_extension (lit "README") = lit "" ∧
    file_utils.get_file_extension (lit "") = lit "" := by
  refine ⟨?_, ?_, ?_, ?_, by decide, by decide, by decide, by decide, by decide⟩
  · constructor
    · intro he hd
      obtain ⟨pre, suf, hs, hn⟩ := exists_last_occurrence path DOT hd
      rw [hs, get_file_extension_split pre suf hn] at he
      exact absurd he (List.cons_ne_nil DOT suf)
    · exact get_file_extension_no_dot path
  · intro pre suf hs hn
    rw [hs]
    exact get_file_extension_split pre suf hn
  · by_cases hd : DOT ∈ path
    · obtain ⟨pre, suf, hs, hn⟩ := exists_last_occurrence path DOT hd
      exact ⟨pre, by rw [hs, get_file_extension_split pre suf hn]⟩
    · exact ⟨path, by rw [get_file_extension_no_dot path hd, List.append_nil]⟩
  · intro hne
    by_cases hd : DOT ∈ path
    · obtain ⟨pre, suf, hs, hn⟩ := exists_last_occurrence path DOT hd
      exact ⟨suf, by rw [hs, get_file_extension_split pre suf hn], hn⟩
    · exact absurd (get_file_extension_no_dot path hd) hne

/-- C8 at `archive.tar.gz`, split at its last `.`. -/
theorem C8_get_file_extension_witness :
    lit "archive.tar.gz" = lit "archive.tar" ++ DOT :: lit "gz" ∧ DOT ∉ lit "gz" ∧
    file_utils.get_file_extension (lit "archive.tar.gz") = DOT :: lit "gz" :=
  ⟨by decide, by decide,
    (C8_get_file_extension (lit "archive.tar.gz")).2.1 (lit "archive.tar") (lit "gz")
      (by decide) (by decide)⟩


theorem get_content_type_split (pre suf : CppString) (h : DOT ∉ suf) :
    get_content_type (pre ++ DOT :: suf) =
      (mime_types.lookup (DOT :: suf)).getD (lit "application/octet-stream") := by
  unfold get_content_type
  rw [find_last_of_append_cons pre suf DOT h]
  simp only [substr, List.drop_left]
  cases mime_types.lookup (DOT :: suf) <;> rfl

theorem get_content_type_no_dot (path : CppString) (h : DOT ∉ path) :
    get_content_type path = lit "application/octet-stream" := by
  unfold get_content_type
  rw [find_last_of_none path DOT h]

theorem lookup_cons_getD (a k v d : CppString) (es : List (CppString × CppString)) :
    (((k, v) :: es).lookup a).getD d = if a = k then v else (es.lookup a).getD d := by
  rw [List.lookup_cons]
  by_cases h : a = k
  · simp [h]
  · have hb : (a == k) = false := by simpa using h
    simp [h, hb]

/-- The table lookup, written out key by key. -/
theorem mime_types_lookup (ext : CppString) :
    (mime_types.lookup ext).getD (lit "application/octet-stream") =
      if ext = lit ".html" then lit "text/html"
      else if ext = lit ".htm" then lit "text/html"
      else if ext = lit ".css" then lit "text/css"
      else if ext = lit ".js" then lit "application/javascript"
      else if ext = lit ".json" then lit "application/json"
      else if ext = lit ".png" then lit "image/png"
      else if ext = lit ".jpg" then lit "image/jpeg"
      else if ext = lit ".jpeg" then lit "image/jpeg"
      else if ext = lit ".gif" then lit "image/gif"
      else if ext = lit ".svg" then lit "image/svg+xml"
      else if ext = lit ".ico" then lit "image/x-icon"
      else if ext = lit ".txt" then lit "text/plain"
      else if ext = lit ".pdf" then lit "application/pdf"
      else lit "application/octet-stream" := by
  unfold mime_types
  simp only [lookup_cons_getD, List.lookup_nil, Option.getD_none]

/-- C7: `get_content_type` is a total function of the path. A path without
`.` gives `application/octet-stream`. A path that splits at its last `.`
into `pre` and `suf` gives the table value when `.` followed by `suf` is,
byte for byte, one of the thirteen keys, and `application/octet-stream`
otherwise (unknown or upper-case suffix). The examples of the
specification evaluate as stated. -/
theorem C7_get_content_type (path : CppString) :
    (DOT ∉ path → get_content_type path = lit "application/octet-stream") ∧
    (∀ pre suf, path = pre ++ DOT :: suf → DOT ∉ suf →
      get_content_type path =
        if DOT :: suf = lit ".html" then lit "text/html"
        else if DOT :: suf = lit ".htm" then lit "text/html"
        else if DOT :: suf = lit ".css" then lit "text/css"
        else if DOT :: suf = lit ".js" then lit "application/javascript"
        else if DOT :: suf = lit ".json" then lit "application/json"
        else if DOT :: suf = lit ".png" then lit "image/png"
        else if DOT :: suf = lit ".jpg" then lit "image/jpeg"
        else if DOT :: suf = lit ".jpeg" then lit "image/jpeg"
        else if DOT :: suf = lit ".gif" then lit "image/gif"
        else if DOT :: suf = lit ".svg" then lit "image/svg+xml"
        else if DOT :: suf = lit ".ico" then lit "image/x-icon"
        else if DOT :: suf = lit ".txt" then lit "text/plain"
        else if DOT :: suf = lit ".pdf" then lit "application/pdf"
        else lit "application/octet-stream") ∧
    get_content_type (lit "x.json") = lit "application/json" ∧
    get_content_type (lit "x.unknownext") = lit "application/octet-stream" ∧
    get_content_type (lit "README") = lit "application/octet-stream" ∧
    get_content_type (lit "x.HTML") = lit "application/octet-stream" := by
  refine ⟨get_content_type_no_dot path, ?_, by decide, by decide, by decide, by decide⟩
  intro pre suf hs hn
  rw [hs, get_content_type_split pre suf hn, mime_types_lookup]

/-- C7 at `site/app.min.js`, split at its last `.`. -/
theorem C7_get_content_type_witness :
    lit "site/app.min.js" = lit "site/app.min" ++ DOT :: lit "js" ∧ DOT ∉ lit "js" ∧
    get_content_type (lit "site/app.min.js") = lit "application/javascript" :=
  ⟨by decide, by decide,
    ((C7_get_content_type (lit "site/app.min.js")).2.1 (lit "site/app.min") (lit "js")
      (by decide) (by decide)).trans (by decide)⟩


/-- The request string built from a read whose bytes start with a NUL-free
block that fits the buffer starts with that block. -/
theorem request_of_data_append (pre rest : CppString)
    (hpre : ∀ c ∈ pre, (c != NUL) = true) (hlen : pre.length ≤ 1023) :
    ∃ z, request_of (ReadResult.data (pre ++ rest)) = pre ++ z := by
  unfold request_of read c_str
  have htake : (pre ++ rest).take (1024 - 1) = pre ++ rest.take (1024 - 1 - pre.length) := by
    rw [List.take_append_eq_append_take, List.take_of_length_le (by omega)]
  simp only [htake, List.append_assoc]
  rw [List.takeWhile_append_of_pos hpre]
  exact ⟨_, rfl⟩

theorem parse_request_root (z path method : CppString) :
    parse_request (lit "GET / HTTP/1.1\r\n" ++ z) path method =
      { path := lit "/index.html", method := lit "GET" } := by
  have hreq : lit "GET / HTTP/1.1\r\n" ++ z =
      lit "GET" ++ SP :: (lit "/" ++ (SP :: (lit "HTTP/1.1\r\n" ++ z))) := by
    have : lit "GET / HTTP/1.1\r\n" = lit "GET" ++ SP :: (lit "/" ++ SP :: lit "HTTP/1.1\r\n") := by
      decide
    rw [this]
    simp
  rw [hreq, parse_request_tokens (lit "GET") (lit "/") (SP :: (lit "HTTP/1.1\r\n" ++ z)) path
    method (by decide) (by decide) (by decide) (by decide) (Or.inr ⟨SP, _, rfl, by decide⟩)]
  have hf : find (lit "/index.html") QMARK = none := by decide
  simp [hf]

/-! ## End to end -/

/-- C9: when `root_directory + "/index.html"` exists and reads as the 15
bytes `<html>hi</html>`, a connection whose read delivers
`GET / HTTP/1.1\r\n` followed by any bytes receives exactly the 200 response
with `Content-Type: text/html`, `Content-Length: 15` and that body. -/
theorem C9_end_to_end (config : ServerConfig) (fs : FileSystem) (headers : CppString)
    (hexists :
      file_utils.file_exists fs (config.root_directory ++ lit "/index.html") = true)
    (hread : file_utils.read_file fs (config.root_directory ++ lit "/index.html") =
      Except.ok (lit "<html>hi</html>")) :
    sent (handle_connection config fs
        (ReadResult.data (lit "GET / HTTP/1.1\r\n" ++ headers))) =
      lit "HTTP/1.1 200 OK\r\nContent-Type: text/html\r\nContent-Length: 15\r\n\r\n<html>hi</html>" ∧
    (lit "<html>hi</html>").length = 15 := by
  refine ⟨?_, by decide⟩
  obtain ⟨z, hz⟩ := request_of_data_append (lit "GET / HTTP/1.1\r\n") headers (by decide)
    (by decide)
  have hne : lit "GET / HTTP/1.1\r\n" ++ headers ≠ [] := by
    intro h
    have := congrArg List.length h
    rw [List.length_append] at this
    have hl : (lit "GET / HTTP/1.1\r\n").length = 16 := by decide
    rw [hl] at this
    simp at this
  have hp : parse_request (request_of (ReadResult.data (lit "GET / HTTP/1.1\r\n" ++ headers)))
      (lit "") (lit "") = { path := lit "/index.html", method := lit "GET" } := by
    rw [hz]
    exact parse_request_root z (lit "") (lit "")
  rw [handle_connection_get config fs _ (lit "/index.html") hne hp, sent_parse_cons,
    send_response_ok config fs (lit "/index.html") (lit "<html>hi</html>") hexists hread]
  have hbody : response_header (get_content_type (lit "/index.html")) (lit "<html>hi</html>") ++
      lit "<html>hi</html>" =
      lit "HTTP/1.1 200 OK\r\nContent-Type: text/html\r\nContent-Length: 15\r\n\r\n<html>hi</html>" := by
    decide
  rw [← hbody]
  simp [sent]

/-- C9 on the sample file system, with a `Host` header after the request
line. -/
theorem C9_end_to_end_witness :
    file_utils.file_exists sample_fs (default_config.root_directory ++ lit "/index.html") = true ∧
    file_utils.read_file sample_fs (default_config.root_directory ++ lit "/index.html") =
      Except.ok (lit "<html>hi</html>") ∧
    sent (handle_connection default_config sample_fs
        (ReadResult.data (lit "GET / HTTP/1.1\r\n" ++ lit "Host: localhost\r\n\r\n"))) =
      lit "HTTP/1.1 200 OK\r\nContent-Type: text/html\r\nContent-Length: 15\r\n\r\n<html>hi</html>" :=
  ⟨by decide, rfl,
    (C9_end_to_end default_config sample_fs (lit "Host: localhost\r\n\r\n") (by decide) rfl).1⟩


/-- The file-system calls of `send_response`: the existence check on the
full path and, when it succeeds, the read of the same full path. -/
theorem fs_calls_send_response (config : ServerConfig) (fs : FileSystem) (path : CppString) :
    fs_calls (send_response config fs path) =
      if file_utils.file_exists fs (config.root_directory ++ path) = true then
        [Event.file_exists (config.root_directory ++ path),
          Event.read_file (config.root_directory ++ path)]
      else [Event.file_exists (config.root_directory ++ path)] := by
  by_cases hexists : file_utils.file_exists fs (config.root_directory ++ path) = true
  · rw [if_pos hexists]
    cases hread : file_utils.read_file fs (config.root_directory ++ path) with
    | error cause =>
      rw [send_response_unreadable config fs path cause hexists hread]
      simp [fs_calls]
    | ok content =>
      rw [send_response_ok config fs path content hexists hread]
      simp [fs_calls]
  · rw [if_neg hexists]
    rw [send_response_missing config fs path (by simpa using hexists)]
    simp [fs_calls]

theorem fs_calls_parse_cons (request : CppString) (trace : List Event) :
    fs_calls (Event.parse_request request :: trace) = fs_calls trace := by
  simp [fs_calls]

theorem c_str_of_no_NUL (s : CppString) (h : NUL ∉ s) : c_str s = s := by
  unfold c_str
  rw [List.takeWhile_eq_self_iff]
  intro c hc
  have : ¬ c = NUL := fun e => h (e ▸ hc)
  simpa using this

/-! ## Path resolution -/

/-- C10: for a request `GET SP T`, followed by nothing or by whitespace and
anything, where the target `T` is a non-empty whitespace-free token other
than `/` and without `?`, the parsed path is `T` itself, and the file-system
calls of `send_response` are the existence check on `root_directory ++ T`
and, when that succeeds, the read of `root_directory ++ T`: the plain
concatenation, nothing decoded, removed or inserted. The same holds for the
calls of `handle_connection` on a connection whose request is that string.
When neither part holds a NUL, this is also the C path handed to the
operating system. -/
theorem C10_path_resolution (config : ServerConfig) (fs : FileSystem)
    (T after path method : CppString)
    (hT : T ≠ []) (hTs : ∀ c ∈ T, isspace c = false) (hroot : T ≠ lit "/")
    (hq : QMARK ∉ T)
    (hafter : after = [] ∨ ∃ c r, after = c :: r ∧ isspace c = true) :
    parse_request (lit "GET" ++ [SP] ++ T ++ after) path method =
      { path := T, method := lit "GET" } ∧
    fs_calls (send_response config fs
        (parse_request (lit "GET" ++ [SP] ++ T ++ after) path method).path) =
      (if file_utils.file_exists fs (config.root_directory ++ T) = true then
        [Event.file_exists (config.root_directory ++ T),
          Event.read_file (config.root_directory ++ T)]
      else [Event.file_exists (config.root_directory ++ T)]) ∧
    (∀ bytes : CppString, bytes ≠ [] →
      request_of (ReadResult.data bytes) = lit "GET" ++ [SP] ++ T ++ after →
      fs_calls (handle_connection config fs (ReadResult.data bytes)) =
        (if file_utils.file_exists fs (config.root_directory ++ T) = true then
          [Event.file_exists (config.root_directory ++ T),
            Event.read_file (config.root_directory ++ T)]
        else [Event.file_exists (config.root_directory ++ T)])) ∧
    (NUL ∉ config.root_directory → NUL ∉ T →
      c_str (config.root_directory ++ T) = config.root_directory ++ T) := by
  have hparse : ∀ path method : CppString,
      parse_request (lit "GET" ++ [SP] ++ T ++ after) path method =
        { path := T, method := lit "GET" } := by
    intro path method
    have hreq : lit "GET" ++ [SP] ++ T ++ after = lit "GET" ++ SP :: (T ++ after) := by
      simp
    rw [hreq, parse_request_tokens (lit "GET") T after path method (by decide) (by decide)
      hT hTs hafter]
    have hf : find T QMARK = none := find_none T QMARK hq
    simp only [beq_iff_eq, hroot, if_false, hf]
  refine ⟨hparse path method, ?_, ?_, ?_⟩
  · rw [hparse path method]
    exact fs_calls_send_response config fs T
  · intro bytes hb hreq
    have hp : parse_request (request_of (ReadResult.data bytes)) (lit "") (lit "") =
        { path := T, method := lit "GET" } := by
      rw [hreq]
      exact hparse (lit "") (lit "")
    rw [handle_connection_get config fs bytes T hb hp, fs_calls_parse_cons]
    exact fs_calls_send_response config fs T
  · intro h1 h2
    apply c_str_of_no_NUL
    intro h
    rcases List.mem_append.1 h with h | h
    · exact h1 h
    · exact h2 h

/-- C10 at the root `./public` and the target `/../secret.txt`: the path
parsed is the target and the path checked is `./public/../secret.txt`. -/
theorem C10_path_resolution_witness :
    lit "/../secret.txt" ≠ [] ∧ (∀ c ∈ lit "/../secret.txt", isspace c = false) ∧
    lit "/../secret.txt" ≠ lit "/" ∧ QMARK ∉ lit "/../secret.txt" ∧
    parse_request (lit "GET" ++ [SP] ++ lit "/../secret.txt" ++ lit " HTTP/1.1\r\n\r\n")
        (lit "") (lit "") =
      { path := lit "/../secret.txt", method := lit "GET" } ∧
    default_config.root_directory ++ lit "/../secret.txt" = lit "./public/../secret.txt" ∧
    default_config.root_directory ++ lit "/%2e%2e/x" = lit "./public/%2e%2e/x" :=
  ⟨by decide, by decide, by decide, by decide,
    (C10_path_resolution default_config sample_fs (lit "/../secret.txt")
      (lit " HTTP/1.1\r\n\r\n") (lit "") (lit "") (by decide) (by decide) (by decide)
      (by decide) (Or.inr ⟨SP, lit "HTTP/1.1\r\n\r\n", by decide, by decide⟩)).1,
    by decide, by decide⟩


/-! ## Reads that deliver nothing, and what the response depends on -/

theorem response_header_ne_nil (content_type content : CppString) :
    response_header content_type content ≠ [] := by
  have h : lit "HTTP/1.1 200 OK\r\n" = 72 :: lit "TTP/1.1 200 OK\r\n" := by decide
  unfold response_header
  rw [h]
  simp

theorem sent_send_response_ne_nil (config : ServerConfig) (fs : FileSystem)
    (path : CppString) : sent (send_response config fs path) ≠ [] := by
  by_cases hexists : file_utils.file_exists fs (config.root_directory ++ path) = true
  · cases hread : file_utils.read_file fs (config.root_directory ++ path) with
    | error cause =>
      rw [send_response_unreadable config fs path cause hexists hread]
      have : server_error ≠ [] := by decide
      simpa [sent] using this
    | ok content =>
      rw [send_response_ok config fs path content hexists hread]
      have := response_header_ne_nil (get_content_type path) content
      simp [sent, this]
  · rw [send_response_missing config fs path (by simpa using hexists)]
    have : not_found ≠ [] := by decide
    simpa [sent] using this

/-- A read that delivered at least one byte is always answered. -/
theorem sent_handle_connection_ne_nil (config : ServerConfig) (fs : FileSystem)
    (bytes : CppString) (hb : bytes ≠ []) :
    sent (handle_connection config fs (ReadResult.data bytes)) ≠ [] := by
  rw [handle_connection_data config fs bytes hb]
  split
  · have : method_not_allowed ≠ [] := by decide
    simpa [sent] using this
  · rw [sent_parse_cons]
    exact sent_send_response_ne_nil config fs _

/-- The trace of `send_response` depends on the file system through the
answers for the full path only. -/
theorem send_response_congr (config1 config2 : ServerConfig) (fs1 fs2 : FileSystem)
    (path : CppString) (hroot : config1.root_directory = config2.root_directory)
    (hexists : file_utils.file_exists fs1 (config1.root_directory ++ path) =
      file_utils.file_exists fs2 (config1.root_directory ++ path))
    (hread : (file_utils.read_file fs1 (config1.root_directory ++ path)).toOption =
      (file_utils.read_file fs2 (config1.root_directory ++ path)).toOption) :
    send_response config1 fs1 path = send_response config2 fs2 path := by
  unfold send_response
  simp only []
  rw [← hroot, ← hexists]
  cases h1 : file_utils.read_file fs1 (config1.root_directory ++ path) <;>
    cases h2 : file_utils.read_file fs2 (config1.root_directory ++ path) <;>
    simp_all [Except.toOption]

/-- C11: when the single read returns zero or a negative count,
`handle_connection` does nothing at all: its trace is empty, so nothing is
sent, nothing is parsed and no file-system call is made. Bytes are sent if
and only if the read returned at least one byte. A failed read returns -1
and a read at the end of the stream returns 0; both leave the trace empty. -/
theorem C11_silent_on_empty_read (config : ServerConfig) (fs : FileSystem)
    (incoming : ReadResult) :
    ((read incoming (List.replicate 1024 0) (1024 - 1)).1 ≤ 0 →
      handle_connection config fs incoming = []) ∧
    (sent (handle_connection config fs incoming) ≠ [] ↔
      0 < (read incoming (List.replicate 1024 0) (1024 - 1)).1) ∧
    (read ReadResult.error (List.replicate 1024 0) (1024 - 1)).1 = -1 ∧
    (read (ReadResult.data []) (List.replicate 1024 0) (1024 - 1)).1 = 0 ∧
    handle_connection config fs ReadResult.error = [] ∧
    handle_connection config fs (ReadResult.data []) = [] := by
  have hsilent : (read incoming (List.replicate 1024 0) (1024 - 1)).1 ≤ 0 →
      handle_connection config fs incoming = [] := by
    intro h
    unfold handle_connection
    simp only [h, if_true]
  refine ⟨hsilent, ?_, rfl, rfl, rfl, rfl⟩
  constructor
  · intro hs
    by_contra hn
    exact hs (by rw [hsilent (by omega)]; rfl)
  · intro hpos
    cases incoming with
    | error => exact absurd hpos (by decide)
    | data bytes =>
      cases bytes with
      | nil => exact absurd hpos (by decide)
      | cons b bs => exact sent_handle_connection_ne_nil config fs (b :: bs) (List.cons_ne_nil b bs)

/-- C11 at a failed read: the count is negative and the trace is empty. -/
theorem C11_silent_on_empty_read_witness :
    (read ReadResult.error (List.replicate 1024 0) (1024 - 1)).1 ≤ 0 ∧
    handle_connection default_config sample_fs ReadResult.error = [] :=
  ⟨by decide,
    (C11_silent_on_empty_read default_config sample_fs ReadResult.error).1 (by decide)⟩

/-- C13: the trace of `handle_connection`, and with it the bytes sent, is the
same for two configurations with the same root directory and two file
systems that agree on the one path `root_directory ++ parsed path`: the same
answer of `file_exists`, and the same outcome of `read_file` (both fail, or
both return the same bytes). Nothing else of the file system, no port and
no earlier connection enters. -/
theorem C13_response_depends_on_one_file (config1 config2 : ServerConfig)
    (fs1 fs2 : FileSystem) (incoming : ReadResult)
    (hroot : config1.root_directory = config2.root_directory)
    (hexists :
      file_utils.file_exists fs1 (config1.root_directory ++
          (parse_request (request_of incoming) (lit "") (lit "")).path) =
        file_utils.file_exists fs2 (config1.root_directory ++
          (parse_request (request_of incoming) (lit "") (lit "")).path))
    (hread :
      (file_utils.read_file fs1 (config1.root_directory ++
          (parse_request (request_of incoming) (lit "") (lit "")).path)).toOption =
        (file_utils.read_file fs2 (config1.root_directory ++
          (parse_request (request_of incoming) (lit "") (lit "")).path)).toOption) :
    handle_connection config1 fs1 incoming = handle_connection config2 fs2 incoming ∧
    sent (handle_connection config1 fs1 incoming) =
      sent (handle_connection config2 fs2 incoming) := by
  have hsend : send_response config1 fs1
        (parse_request (request_of incoming) (lit "") (lit "")).path =
      send_response config2 fs2
        (parse_request (request_of incoming) (lit "") (lit "")).path :=
    send_response_congr config1 config2 fs1 fs2 _ hroot hexists hread
  have htrace : handle_connection config1 fs1 incoming =
      handle_connection config2 fs2 incoming := by
    unfold handle_connection
    have hs := hsend
    unfold request_of at hs
    simp only [hs]
  exact ⟨htrace, by rw [htrace]⟩

/-- C13 with the sample file system and a second one that holds
`index.html` only, under another port: the request for `/` gets the same
bytes. -/
theorem C13_response_depends_on_one_file_witness :
    sent (handle_connection default_config sample_fs
        (ReadResult.data (lit "GET / HTTP/1.1\r\n\r\n"))) =
      sent (handle_connection { port := 9090, root_directory := lit "./public" }
        { stat := fun p => p == lit "./public/index.html"
          ifstream := fun p =>
            if p == lit "./public/index.html" then some (lit "<html>hi</html>")
            else some (lit "other") }
        (ReadResult.data (lit "GET / HTTP/1.1\r\n\r\n"))) :=
  (C13_response_depends_on_one_file default_config
    { port := 9090, root_directory := lit "./public" } sample_fs
    { stat := fun p => p == lit "./public/index.html"
      ifstream := fun p =>
        if p == lit "./public/index.html" then some (lit "<html>hi</html>")
        else some (lit "other") }
    (ReadResult.data (lit "GET / HTTP/1.1\r\n\r\n")) rfl (by decide) (by decide)).2


/-! ## The request string -/

theorem takeWhile_append_stop {p : Byte → Bool} (l r : List Byte) (x : Byte)
    (hx : p x = false) : (l ++ x :: r).takeWhile p = l.takeWhile p := by
  induction l with
  | nil => simp [hx]
  | cons a as ih =>
    rw [List.cons_append, List.takeWhile_cons, List.takeWhile_cons, ih]

/-- The request string is the part before the first NUL of the bytes that
fit the buffer. -/
theorem request_of_data (bytes : CppString) :
    request_of (ReadResult.data bytes) = c_str (bytes.take 1023) := by
  have hlen : (bytes.take 1023).length ≤ 1023 := by
    rw [List.length_take]
    omega
  have hdrop : List.drop (bytes.take 1023).length (List.replicate 1024 (0 : Byte)) =
      NUL :: List.replicate (1023 - (bytes.take 1023).length) 0 := by
    rw [List.drop_replicate]
    have : 1024 - (bytes.take 1023).length = (1023 - (bytes.take 1023).length) + 1 := by
      omega
    rw [this, List.replicate_succ]
    rfl
  unfold request_of read c_str
  simp only [Nat.add_one_sub_one, hdrop]
  exact takeWhile_append_stop _ _ NUL (by decide)

/-- C14 as stated does not hold: a read of 21 bytes with a NUL in seventh
place gives the request string `GET /a`, the six bytes before the NUL, and
that is what is parsed. -/
theorem C14_request_counterexample :
    (lit "GET /a" ++ NUL :: lit "b HTTP/1.1\r\n\r\n").length = 21 ∧
    request_of (ReadResult.data (lit "GET /a" ++ NUL :: lit "b HTTP/1.1\r\n\r\n")) =
      lit "GET /a" ∧
    request_of (ReadResult.data (lit "GET /a" ++ NUL :: lit "b HTTP/1.1\r\n\r\n")) ≠
      lit "GET /a" ++ NUL :: lit "b HTTP/1.1\r\n\r\n" ∧
    (handle_connection default_config sample_fs
        (ReadResult.data (lit "GET /a" ++ NUL :: lit "b HTTP/1.1\r\n\r\n"))).head? =
      some (Event.parse_request (lit "GET /a")) := by
  decide

/-- C14 as amended: for a read that returned 1 to 1023 bytes, the first thing
`handle_connection` does is to parse the request string, and that string is
the bytes read up to, and without, the first NUL byte: all the bytes when
none is NUL, and the bytes before the first NUL otherwise. -/
theorem C14_request (config : ServerConfig) (fs : FileSystem) (bytes : CppString)
    (hb : bytes ≠ []) (hlen : bytes.length ≤ 1023) :
    (handle_connection config fs (ReadResult.data bytes)).head? =
      some (Event.parse_request (c_str bytes)) ∧
    request_of (ReadResult.data bytes) = c_str bytes ∧
    (NUL ∉ bytes → request_of (ReadResult.data bytes) = bytes) ∧
    (∀ pre suf, bytes = pre ++ NUL :: suf → NUL ∉ pre →
      request_of (ReadResult.data bytes) = pre) := by
  have hreq : request_of (ReadResult.data bytes) = c_str bytes := by
    rw [request_of_data, List.take_of_length_le hlen]
  refine ⟨?_, hreq, ?_, ?_⟩
  · rw [handle_connection_data config fs bytes hb, hreq]
    split <;> rfl
  · intro hn
    rw [hreq, c_str_of_no_NUL bytes hn]
  · intro pre suf hs hn
    rw [hreq, hs]
    unfold c_str
    rw [takeWhile_append_stop pre suf NUL (by decide)]
    exact c_str_of_no_NUL pre hn

/-- C14 as amended, at a read without NUL: the request string is the bytes
read. -/
theorem C14_request_witness :
    lit "GET /a.html HTTP/1.1\r\n\r\n" ≠ [] ∧
    (lit "GET /a.html HTTP/1.1\r\n\r\n").length ≤ 1023 ∧
    NUL ∉ lit "GET /a.html HTTP/1.1\r\n\r\n" ∧
    request_of (ReadResult.data (lit "GET /a.html HTTP/1.1\r\n\r\n")) =
      lit "GET /a.html HTTP/1.1\r\n\r\n" :=
  ⟨by decide, by decide, by decide,
    (C14_request default_config sample_fs (lit "GET /a.html HTTP/1.1\r\n\r\n") (by decide)
      (by decide)).2.2.1 (by decide)⟩

/-! ## The normal form of the parsed path -/

theorem find_some_not_mem_take (s : CppString) (ch : Byte) :
    ∀ i, find s ch = some i → ch ∉ s.take i := by
  induction s with
  | nil =>
    intro i h
    simp [find] at h
  | cons c cs ih =>
    intro i h
    by_cases hc : c = ch
    · have : i = 0 := by simpa [find, hc] using h.symm
      subst this
      simp
    · simp only [find, beq_iff_eq, hc, if_false, Option.map_eq_some'] at h
      obtain ⟨j, hj, hi⟩ := h
      subst hi
      rw [List.take_succ_cons]
      intro hm
      rcases List.mem_cons.1 hm with e | e
      · exact hc e.symm
      · exact ih j hj e

theorem find_none_not_mem (s : CppString) (ch : Byte) (h : find s ch = none) : ch ∉ s := by
  induction s with
  | nil => exact List.not_mem_nil ch
  | cons c cs ih =>
    by_cases hc : c = ch
    · simp [find, hc] at h
    · simp only [find, beq_iff_eq, hc, if_false, Option.map_eq_none'] at h
      intro hm
      rcases List.mem_cons.1 hm with e | e
      · exact hc e.symm
      · exact ih h e

/-- C15 on the code: the request `GET /?x=1 HTTP/1.1` yields the path `/`,
because the comparison with `/` runs before the query string is cut off; the
handler then checks the root directory itself, `./public/`. The other half
holds: for every request string and all entry values, the path yielded
holds no `?`. -/
theorem C15_root_with_query :
    (parse_request (lit "GET /?x=1 HTTP/1.1\r\n\r\n") (lit "") (lit "")).path = lit "/" ∧
    fs_calls (handle_connection default_config sample_fs
        (ReadResult.data (lit "GET /?x=1 HTTP/1.1\r\n\r\n"))) =
      [Event.file_exists (lit "./public/")] ∧
    (∀ request path method : CppString,
      QMARK ∉ (parse_request request path method).path) := by
  refine ⟨by decide, by decide, ?_⟩
  intro request path method
  unfold parse_request
  simp only []
  split
  · next i hi =>
    simp only [substr, List.drop_zero]
    exact find_some_not_mem_take _ QMARK i hi
  · next hn => exact find_none_not_mem _ QMARK hn


/-! ## The port handed to bind -/

theorem ntohs_htons (x : Nat) (h : x < 65536) : ntohs (htons x) = x := by
  have hq : x / 256 % 256 = x / 256 := by omega
  have h1 : (x % 256 * 256 + x / 256) % 256 = x / 256 := by omega
  have h2 : (x % 256 * 256 + x / 256) / 256 = x % 256 := by omega
  have h3 : x % 256 % 256 = x % 256 := by omega
  unfold ntohs htons
  rw [hq, h1, h2, h3]
  omega

theorem to_uint16_lt (x : Int) : to_uint16 x < 65536 := by
  unfold to_uint16
  omega

theorem to_uint16_add (x k : Int) : to_uint16 (x + 65536 * k) = to_uint16 x := by
  unfold to_uint16
  rw [Int.add_mul_emod_self_left]

/-- Every `bind` call of `initialize_socket` carries the port
`to_uint16 config.port`. -/
theorem bound_ports_initialize_socket (config : ServerConfig) (os : SocketResults) :
    bound_ports (initialize_socket config os).2 = [] ∨
      bound_ports (initialize_socket config os).2 = [to_uint16 config.port] := by
  have hp := ntohs_htons (to_uint16 config.port) (to_uint16_lt config.port)
  unfold initialize_socket
  simp only []
  split
  · left
    rfl
  · split
    · left
      rfl
    · right
      split
      · simp [bound_ports, hp]
      · split <;> simp [bound_ports, hp]

/-- C16 on the code: `htons` takes a `uint16_t`, so the port that reaches
`bind` is `config.port` reduced modulo 65536. With every call succeeding,
port 73616 binds 8080, the same port as the configuration with port 8080,
and port -1 binds 65535. In general the only port `initialize_socket` hands
to `bind` is `to_uint16 config.port`, and adding a multiple of 65536 to
`config.port` does not change it. -/
theorem C16_port_wraps :
    bound_ports (initialize_socket { port := 73616, root_directory := lit "./public" }
      sample_os).2 = [8080] ∧
    bound_ports (initialize_socket { port := 8080, root_directory := lit "./public" }
      sample_os).2 = [8080] ∧
    bound_ports (initialize_socket { port := -1, root_directory := lit "./public" }
      sample_os).2 = [65535] ∧
    (∀ (config : ServerConfig) (os : SocketResults),
      bound_ports (initialize_socket config os).2 = [] ∨
        bound_ports (initialize_socket config os).2 = [to_uint16 config.port]) ∧
    (∀ x k : Int, to_uint16 (x + 65536 * k) = to_uint16 x) := by
  refine ⟨by decide, by decide, by decide, bound_ports_initialize_socket, to_uint16_add⟩


/-! ## The accept loop -/

theorem step_invariant (config : ServerConfig) (fs : FileSystem) (s : LoopState)
    (env : AcceptResult) (h : s.invariant) : (step config fs s env).invariant := by
  unfold step
  cases hpc : s.pc with
  | accepting =>
    simp only [LoopState.invariant, hpc] at h
    by_cases hneg : env.client_socket < 0
    · simp only [hneg, if_true]
      simp only [LoopState.invariant, hpc, h]
    · simp only [hneg, if_false]
      simp only [LoopState.invariant, h]
  | handling client_socket incoming =>
    simp only [LoopState.invariant, hpc] at h
    simp only [LoopState.invariant, h]
  | closing client_socket =>
    simp only [LoopState.invariant, hpc] at h
    simp only [LoopState.invariant, h, List.erase_cons_head]

theorem run_invariant (config : ServerConfig) (fs : FileSystem) (envs : List AcceptResult) :
    ∀ s : LoopState, s.invariant → (run config fs s envs).invariant := by
  induction envs with
  | nil =>
    intro s h
    exact h
  | cons env rest ih =>
    intro s h
    exact ih (step config fs s env) (step_invariant config fs s env h)

theorem invariant_length (s : LoopState) (h : s.invariant) :
    (s.pc = Pc.accepting → s.open_clients = []) ∧ s.open_clients.length ≤ 1 := by
  unfold LoopState.invariant at h
  cases hpc : s.pc with
  | accepting =>
    rw [hpc] at h
    simp [h]
  | handling client_socket incoming =>
    rw [hpc] at h
    simp [h]
  | closing client_socket =>
    rw [hpc] at h
    simp [h]

/-- C17: in the loop of `start`, a failed `accept` leaves the state as it is
(nothing opened, nothing handled, the loop is at `accept` again). A
successful `accept` with no connection open makes the accepted connection
the one open connection; the next step runs `handle_connection` on it and
records its trace, whatever that trace is; the step after closes it, and the
loop is at `accept` again with no connection open. In every state reached
from the initial one, no client connection is open when the loop stands at
`accept`, and at most one is open. -/
theorem C17_accept_loop (config : ServerConfig) (fs : FileSystem) :
    (∀ (s : LoopState) (env : AcceptResult), s.pc = Pc.accepting →
      env.client_socket < 0 → step config fs s env = s) ∧
    (∀ (s : LoopState) (env e2 e3 : AcceptResult), s.pc = Pc.accepting →
      s.open_clients = [] → 0 ≤ env.client_socket →
      (step config fs s env).pc = Pc.handling env.client_socket env.incoming ∧
      (step config fs s env).open_clients = [env.client_socket] ∧
      (step config fs s env).served = s.served ∧
      (step config fs (step config fs s env) e2).pc = Pc.closing env.client_socket ∧
      (step config fs (step config fs s env) e2).open_clients = [env.client_socket] ∧
      (step config fs (step config fs s env) e2).served =
        s.served ++ [handle_connection config fs env.incoming] ∧
      (step config fs (step config fs (step config fs s env) e2) e3).pc = Pc.accepting ∧
      (step config fs (step config fs (step config fs s env) e2) e3).open_clients = [] ∧
      (step config fs (step config fs (step config fs s env) e2) e3).served =
        s.served ++ [handle_connection config fs env.incoming]) ∧
    (∀ envs : List AcceptResult,
      ((run config fs LoopState.initial envs).pc = Pc.accepting →
        (run config fs LoopState.initial envs).open_clients = []) ∧
      (run config fs LoopState.initial envs).open_clients.length ≤ 1) := by
  refine ⟨?_, ?_, ?_⟩
  · intro s env hpc hneg
    unfold step
    simp [hpc, hneg]
  · intro s env e2 e3 hpc hopen hpos
    have hneg : ¬ env.client_socket < 0 := by omega
    have h1 : step config fs s env =
        { pc := Pc.handling env.client_socket env.incoming,
          open_clients := [env.client_socket], served := s.served } := by
      unfold step
      simp [hpc, hneg, hopen]
    rw [h1]
    simp [step]
  · intro envs
    exact invariant_length _ (run_invariant config fs envs LoopState.initial rfl)

/-- C17 on a run of seven steps: a failed `accept`, then two accepted
connections (descriptor 4 both times), the first with a `GET` request and
the second with a read that delivers nothing. At the end the loop is at
`accept`, no connection is open and two traces are recorded. -/
theorem C17_accept_loop_witness :
    (run default_config sample_fs LoopState.initial
      [{ client_socket := -1, incoming := ReadResult.error },
        { client_socket := 4, incoming := ReadResult.data (lit "GET / HTTP/1.1\r\n\r\n") },
        { client_socket := -1, incoming := ReadResult.error },
        { client_socket := -1, incoming := ReadResult.error },
        { client_socket := 4, incoming := ReadResult.data [] },
        { client_socket := -1, incoming := ReadResult.error },
        { client_socket := -1, incoming := ReadResult.error }]).pc = Pc.accepting ∧
    (run default_config sample_fs LoopState.initial
      [{ client_socket := -1, incoming := ReadResult.error },
        { client_socket := 4, incoming := ReadResult.data (lit "GET / HTTP/1.1\r\n\r\n") },
        { client_socket := -1, incoming := ReadResult.error },
        { client_socket := -1, incoming := ReadResult.error },
        { client_socket := 4, incoming := ReadResult.data [] },
        { client_socket := -1, incoming := ReadResult.error },
        { client_socket := -1, incoming := ReadResult.error }]).open_clients = [] ∧
    (run default_config sample_fs LoopState.initial
      [{ client_socket := -1, incoming := ReadResult.error },
        { client_socket := 4, incoming := ReadResult.data (lit "GET / HTTP/1.1\r\n\r\n") },
        { client_socket := -1, incoming := ReadResult.error },
        { client_socket := -1, incoming := ReadResult.error },
        { client_socket := 4, incoming := ReadResult.data [] },
        { client_socket := -1, incoming := ReadResult.error },
        { client_socket := -1, incoming := ReadResult.error }]).served.length = 2 :=
  ⟨by decide,
    ((C17_accept_loop default_config sample_fs).2.2 _).1 (by decide),
    by decide⟩


/-! ## Request lines with too few tokens -/

theorem tokens_all_space (l : CppString) (h : ∀ c ∈ l, isspace c = true) : tokens l = [] := by
  induction l with
  | nil => rfl
  | cons c cs ih =>
    have hc := h c (List.mem_cons_self c cs)
    have hcs := ih (fun x hx => h x (List.mem_cons_of_mem c hx))
    unfold tokens at hcs ⊢
    rw [List.splitOnP_cons, if_pos hc, List.filter_cons]
    simpa using hcs

theorem tokens_spaces_append (ws l : CppString) (h : ∀ c ∈ ws, isspace c = true) :
    tokens (ws ++ l) = tokens l := by
  induction ws with
  | nil => rfl
  | cons c cs ih =>
    have hc := h c (List.mem_cons_self c cs)
    have hcs := ih (fun x hx => h x (List.mem_cons_of_mem c hx))
    unfold tokens at hcs ⊢
    rw [List.cons_append, List.splitOnP_cons, if_pos hc, List.filter_cons]
    simpa using hcs

theorem tokens_token (t : CppString) (hne : t ≠ []) (hts : ∀ c ∈ t, isspace c = false) :
    tokens t = [t] := by
  unfold tokens
  rw [List.splitOnP_eq_single isspace t (fun x hx => by simp [hts x hx])]
  simp [hne]

theorem tokens_token_cons (t r : CppString) (c : Byte) (hne : t ≠ [])
    (hts : ∀ c ∈ t, isspace c = false) (hc : isspace c = true) :
    tokens (t ++ c :: r) = t :: tokens r := by
  unfold tokens
  rw [List.splitOnP_first isspace t (fun x hx => by simp [hts x hx]) c hc r]
  simp [hne]

theorem dropWhile_head_false {p : Byte → Bool} (l r : List Byte) (d : Byte)
    (h : l.dropWhile p = d :: r) : p d = false := by
  induction l with
  | nil => simp at h
  | cons a as ih =>
    rw [List.dropWhile_cons] at h
    split at h
    · exact ih h
    · next hp =>
      have e : a = d := (List.cons.inj h).1
      rw [← e]
      simpa using hp

/-- A line is blank, or it is blanks, then a token, then nothing or
whitespace and more. -/
theorem line_cases (l : CppString) :
    (∀ c ∈ l, isspace c = true) ∨
      ∃ ws t rest, l = ws ++ (t ++ rest) ∧ (∀ c ∈ ws, isspace c = true) ∧ t ≠ [] ∧
        (∀ c ∈ t, isspace c = false) ∧
        (rest = [] ∨ ∃ c r, rest = c :: r ∧ isspace c = true) := by
  cases hd : l.dropWhile isspace with
  | nil =>
    left
    exact List.dropWhile_eq_nil_iff.1 hd
  | cons d r =>
    right
    have hdf : isspace d = false := dropWhile_head_false l r d hd
    refine ⟨l.takeWhile isspace, (d :: r).takeWhile (fun b => !isspace b),
      (d :: r).dropWhile (fun b => !isspace b), ?_, ?_, ?_, ?_, ?_⟩
    · rw [List.takeWhile_append_dropWhile, ← hd, List.takeWhile_append_dropWhile]
    · intro c hc
      exact List.mem_takeWhile_imp hc
    · rw [List.takeWhile_cons]
      simp [hdf]
    · intro c hc
      have := List.mem_takeWhile_imp hc
      simpa using this
    · cases hr : (d :: r).dropWhile (fun b => !isspace b) with
      | nil => exact Or.inl rfl
      | cons c r2 =>
        right
        have := dropWhile_head_false (d :: r) r2 c hr
        exact ⟨c, r2, rfl, by simpa using this⟩

theorem tokens_eq_nil (l : CppString) (h : tokens l = []) : ∀ c ∈ l, isspace c = true := by
  rcases line_cases l with hl | ⟨ws, t, rest, hlr, hws, hne, hts, hrest⟩
  · exact hl
  · rw [hlr, tokens_spaces_append ws _ hws] at h
    rcases hrest with e | ⟨c, r, e, hc⟩
    · rw [e, List.append_nil, tokens_token t hne hts] at h
      exact absurd h (List.cons_ne_nil _ _)
    · rw [e, tokens_token_cons t r c hne hts hc] at h
      exact absurd h (List.cons_ne_nil _ _)

/-- The method and the path that `parse_request` extracts, in terms of the
first line. -/
theorem parse_request_line (request path method : CppString) :
    parse_request request path method =
      match find
        (if (extract (extract (istringstream (first_line request)) method).1 path).2 ==
            lit "/" then lit "/index.html"
          else (extract (extract (istringstream (first_line request)) method).1 path).2)
        QMARK with
      | some param_pos =>
        { path := substr
            (if (extract (extract (istringstream (first_line request)) method).1 path).2 ==
                lit "/" then lit "/index.html"
              else (extract (extract (istringstream (first_line request)) method).1 path).2)
            0 (some param_pos),
          method := (extract (istringstream (first_line request)) method).2 }
      | none =>
        { path :=
            if (extract (extract (istringstream (first_line request)) method).1 path).2 ==
                lit "/" then lit "/index.html"
            else (extract (extract (istringstream (first_line request)) method).1 path).2,
          method := (extract (istringstream (first_line request)) method).2 } := by
  unfold parse_request first_line
  simp only [getline_snd]

theorem parse_request_empty_path (request method : CppString)
    (h : (extract (extract (istringstream (first_line request)) method).1 (lit "")).2 =
      lit "") :
    parse_request request (lit "") method =
      { path := lit "", method := (extract (istringstream (first_line request)) method).2 } := by
  rw [parse_request_line, h]
  rfl

/-- The stream after an extraction from blanks holds blanks only. -/
theorem extract_none_buf (s : IStringStream) (str : CppString)
    (hb : ∀ c ∈ s.buf, isspace c = true) : ∀ c ∈ (extract s str).1.buf, isspace c = true := by
  unfold extract
  split
  · exact hb
  · have : s.buf.dropWhile isspace = [] := by
      rw [List.dropWhile_eq_nil_iff]
      exact hb
    rw [this]
    intro c hc
    exact absurd hc (List.not_mem_nil c)


/-- The parse of a request whose first line is blank: nothing is extracted. -/
theorem parse_request_blank_line (request : CppString)
    (hl : ∀ c ∈ first_line request, isspace c = true) :
    parse_request request (lit "") (lit "") = { path := lit "", method := lit "" } := by
  have h1 : (extract (istringstream (first_line request)) (lit "")).2 = lit "" :=
    extract_none _ _ hl
  have h2 : (extract (extract (istringstream (first_line request)) (lit "")).1 (lit "")).2 =
      lit "" :=
    extract_none _ _ (extract_none_buf _ _ hl)
  rw [parse_request_empty_path request (lit "") h2, h1]

/-- The parse of a request whose first line holds one token between blanks:
the token is the method and the path stays empty. -/
theorem parse_request_one_token (request ws t rest : CppString)
    (hline : first_line request = ws ++ (t ++ rest))
    (hws : ∀ c ∈ ws, isspace c = true) (hne : t ≠ []) (hts : ∀ c ∈ t, isspace c = false)
    (hrest : ∀ c ∈ rest, isspace c = true) :
    parse_request request (lit "") (lit "") = { path := lit "", method := t } := by
  have hrest' : rest = [] ∨ ∃ c r, rest = c :: r ∧ isspace c = true := by
    cases rest with
    | nil => exact Or.inl rfl
    | cons c r => exact Or.inr ⟨c, r, rfl, hrest c (List.mem_cons_self c r)⟩
  have h1 : extract (istringstream (first_line request)) (lit "") =
      ({ buf := rest, eofbit := rest.isEmpty, failbit := false }, t) := by
    rw [hline]
    exact extract_token ws t rest (lit "") hws hne hts hrest'
  have h2 : (extract (extract (istringstream (first_line request)) (lit "")).1 (lit "")).2 =
      lit "" := by
    rw [h1]
    exact extract_none _ _ hrest
  rw [parse_request_empty_path request (lit "") h2, h1]

/-- C12 as stated does not hold: the first line of `GET\r\n\r\n` has the
single token `GET`, and the method yielded is `GET`, not the empty string. -/
theorem C12_too_few_tokens_counterexample :
    tokens (first_line (lit "GET\r\n\r\n")) = [lit "GET"] ∧
    (tokens (first_line (lit "GET\r\n\r\n"))).length < 2 ∧
    (parse_request (lit "GET\r\n\r\n") (lit "") (lit "")).method = lit "GET" ∧
    (parse_request (lit "GET\r\n\r\n") (lit "") (lit "")).method ≠ lit "" := by
  decide

/-- C12 as amended: for a request whose first line has fewer than two
whitespace-delimited tokens, `parse_request`, called with empty method and
path, yields the empty path; the method is empty when the line has no token,
and is the token when the line has one. -/
theorem C12_too_few_tokens (request : CppString)
    (h : (tokens (first_line request)).length < 2) :
    (parse_request request (lit "") (lit "")).path = lit "" ∧
    (tokens (first_line request) = [] →
      (parse_request request (lit "") (lit "")).method = lit "") ∧
    (∀ t, tokens (first_line request) = [t] →
      (parse_request request (lit "") (lit "")).method = t) := by
  rcases line_cases (first_line request) with hl | ⟨ws, t, rest, hline, hws, hne, hts, hrest⟩
  · have hp := parse_request_blank_line request hl
    have ht := tokens_all_space (first_line request) hl
    rw [hp]
    refine ⟨rfl, fun _ => rfl, ?_⟩
    intro t e
    rw [ht] at e
    exact absurd e (List.cons_ne_nil _ _).symm
  · have htok : tokens (first_line request) = tokens (t ++ rest) := by
      rw [hline, tokens_spaces_append ws _ hws]
    have hblank : ∀ c ∈ rest, isspace c = true := by
      rcases hrest with e | ⟨c, r, e, hc⟩
      · rw [e]
        intro c hc
        exact absurd hc (List.not_mem_nil c)
      · rw [htok, e, tokens_token_cons t r c hne hts hc, List.length_cons] at h
        have hr : tokens r = [] := List.eq_nil_of_length_eq_zero (by omega)
        have hrb := tokens_eq_nil r hr
        rw [e]
        intro x hx
        rcases List.mem_cons.1 hx with e2 | e2
        · rw [e2]
          exact hc
        · exact hrb x e2
    have hone : tokens (first_line request) = [t] := by
      rw [htok]
      rcases hrest with e | ⟨c, r, e, hc⟩
      · rw [e, List.append_nil]
        exact tokens_token t hne hts
      · rw [e, tokens_token_cons t r c hne hts hc]
        rw [e] at hblank
        rw [tokens_all_space r (fun x hx => hblank x (List.mem_cons_of_mem c hx))]
    have hp := parse_request_one_token request ws t rest hline hws hne hts hblank
    rw [hp, hone]
    refine ⟨rfl, ?_, ?_⟩
    · intro e
      exact absurd e (List.cons_ne_nil _ _)
    · intro t2 e
      exact (List.cons.inj e).1

/-- C12 as amended, at a request line that holds `GET` only and at a blank
request line. -/
theorem C12_too_few_tokens_witness :
    (tokens (first_line (lit "GET \r\nHost: a\r\n\r\n"))).length < 2 ∧
    (parse_request (lit "GET \r\nHost: a\r\n\r\n") (lit "") (lit "")).path = lit "" ∧
    (parse_request (lit " \t\r\n") (lit "") (lit "")).path = lit "" :=
  ⟨by decide,
    (C12_too_few_tokens (lit "GET \r\nHost: a\r\n\r\n") (by decide)).1,
    (C12_too_few_tokens (lit " \t\r\n") (by decide)).1⟩

end StaticServer
